import Mathlib

/-!
# Verification of the vanilla-arcade simulation engine

A shallow embedding of `src/asteroids-game.ts` (class `AsteroidsGame`).
Numbers are modelled as rationals; the nondeterministic `Math.random()`
source is modelled as an injected stream `rnd : ℕ → ℚ` indexed by a
draw counter threaded through the game state, and the transcendental
`Math.cos` / `Math.sin` are modelled as injected functions `cosf`,
`sinf` (theorems that need their metric properties assume
`cosf q ^ 2 + sinf q ^ 2 = 1` or `-1 ≤ sinf q ≤ 1`).
-/

namespace AsteroidsGame

/-- 2D vector (`interface Vector2D`). -/
structure Vec2 where
  x : ℚ
  y : ℚ
deriving DecidableEq, Repr, Inhabited

/-- The player craft (`interface Ship`). -/
structure Ship where
  position : Vec2
  velocity : Vec2
  rotation : ℚ
  thrust : Bool
  vertices : List Vec2
deriving DecidableEq, Repr, Inhabited

/-- An obstacle (`interface Asteroid`). -/
structure Asteroid where
  position : Vec2
  velocity : Vec2
  rotation : ℚ
  rotationSpeed : ℚ
  size : ℚ
  vertices : List Vec2
deriving DecidableEq, Repr, Inhabited

/-- A projectile (`interface Bullet`). -/
structure Bullet where
  position : Vec2
  velocity : Vec2
  life : ℤ
deriving DecidableEq, Repr, Inhabited

/-- A background star (`interface Star`). -/
structure Star where
  x : ℚ
  y : ℚ
  brightness : ℚ
  twinkleSpeed : ℚ
  twinkleOffset : ℚ
deriving DecidableEq, Repr, Inhabited

/-- The four logical input intents held in `this.keys`. -/
structure Keys where
  left : Bool
  right : Bool
  up : Bool
  fire : Bool
deriving DecidableEq, Repr, Inhabited

/-- Injected environment: the `Math.random()` stream and trig functions. -/
structure Env where
  rnd : ℕ → ℚ
  cosf : ℚ → ℚ
  sinf : ℚ → ℚ

/-- An output vertex (`interface Vertex` of `webgpu-renderer.ts`):
position plus RGBA color. -/
structure Vertex where
  x : ℚ
  y : ℚ
  r : ℚ
  g : ℚ
  b : ℚ
  a : ℚ
deriving DecidableEq, Repr, Inhabited

/-- RGBA color record used while building vertices. -/
structure Color where
  r : ℚ
  g : ℚ
  b : ℚ
  a : ℚ
deriving DecidableEq, Repr, Inhabited

/-- `{ x, y, ...color }` object spread used by `getVertices`. -/
def mkVertex (x y : ℚ) (c : Color) : Vertex :=
  ⟨x, y, c.r, c.g, c.b, c.a⟩

-- Game constants (lines 41-49 of the source).
def SHIP_SIZE : ℚ := 20
def SHIP_THRUST : ℚ := 3/20
def SHIP_FRICTION : ℚ := 99/100
def SHIP_ROTATION_SPEED : ℚ := 2/25
def BULLET_SPEED : ℚ := 8
def BULLET_LIFE : ℤ := 60
def MAX_ASTEROIDS : ℕ := 15
def ASTEROID_SPEED : ℚ := 3/2

/-- The IEEE-754 double value of JavaScript `Math.PI`, as an exact
rational. -/
def mathPI : ℚ := 884279719003555 / 281474976710656

/-- The whole mutable state of an `AsteroidsGame` instance. -/
structure GameState where
  width : ℚ
  height : ℚ
  ship : Ship
  asteroids : List Asteroid
  bullets : List Bullet
  stars : List Star
  score : ℤ
  keys : Keys
  gameOver : Bool
  invincibleTime : ℤ
  rndIdx : ℕ
deriving DecidableEq, Repr, Inhabited

/-- `wrapPosition` (source lines 322-327): four sequential conditional
assignments, exactly as in the source (note the second test reads the
value possibly already rewritten by the first). -/
def wrapPosition (width height : ℚ) (pos : Vec2) : Vec2 :=
  let x1 := if pos.x < 0 then width else pos.x
  let x2 := if x1 > width then 0 else x1
  let y1 := if pos.y < 0 then height else pos.y
  let y2 := if y1 > height then 0 else y1
  ⟨x2, y2⟩

/-- After one `wrapPosition`, both coordinates lie in the closed box
`[0, width] × [0, height]`. -/
theorem wrapPosition_mem_box (width height : ℚ) (hw : 0 ≤ width)
    (hh : 0 ≤ height) (pos : Vec2) :
    0 ≤ (wrapPosition width height pos).x ∧
      (wrapPosition width height pos).x ≤ width ∧
      0 ≤ (wrapPosition width height pos).y ∧
      (wrapPosition width height pos).y ≤ height := by
  unfold wrapPosition
  dsimp only
  split_ifs <;> refine ⟨?_, ?_, ?_, ?_⟩ <;> linarith

/-- `wrapPosition` is idempotent. -/
theorem wrapPosition_idem (width height : ℚ) (pos : Vec2) :
    wrapPosition width height (wrapPosition width height pos) =
      wrapPosition width height pos := by
  unfold wrapPosition
  dsimp only
  split_ifs <;> simp_all [Vec2.mk.injEq]

/-- `createAsteroidVertices` (lines 87-99): pick `8 + Math.floor(r*5)`
vertices, each at angle `(i/n)*PI*2` and radius `size * variance` with
`variance = 0.6 + r*0.4`.  `k` is the current position in the random
stream; returns the vertex list and the advanced stream position. -/
def createAsteroidVertices (env : Env) (size : ℚ) (k : ℕ) :
    List Vec2 × ℕ :=
  let numVertices := (8 + ⌊env.rnd k * 5⌋).toNat
  let k := k + 1
  ((List.range numVertices).map (fun (i : ℕ) =>
      let angle := ((i : ℚ) / (numVertices : ℚ)) * mathPI * 2
      let variance := 3/5 + env.rnd (k + i) * (2/5)
      ⟨env.cosf angle * size * variance,
       env.sinf angle * size * variance⟩),
   k + numVertices)

/-- The velocity given to a freshly spawned asteroid
(lines 124-131): heading angle drawn at stream position `k`,
speed `(ASTEROID_SPEED * (100 - size)) / 50`. -/
def asteroidVelocity (env : Env) (size : ℚ) (k : ℕ) : Vec2 :=
  let angle := env.rnd k * mathPI * 2
  let speed := (ASTEROID_SPEED * (100 - size)) / 50
  ⟨env.cosf angle * speed, env.sinf angle * speed⟩

/-- The asteroid record pushed by `spawnAsteroid` (lines 110-137),
together with the advanced random-stream position.  When no explicit
position is given, an edge (`Math.floor(r*4)`) and a coordinate along
it are drawn first. -/
def mkAsteroid (env : Env) (width height size : ℚ)
    (position : Option Vec2) (k : ℕ) : Asteroid × ℕ :=
  let (pos, k) :=
    match position with
    | some p => (p, k)
    | none =>
      let edge := ⌊env.rnd k * 4⌋
      let k := k + 1
      if edge = 0 then (⟨0, env.rnd k * height⟩, k + 1)
      else if edge = 1 then (⟨width, env.rnd k * height⟩, k + 1)
      else if edge = 2 then (⟨env.rnd k * width, 0⟩, k + 1)
      else (⟨env.rnd k * width, height⟩, k + 1)
  let velocity := asteroidVelocity env size k
  let k := k + 1
  let rotationSpeed := (env.rnd k - 1/2) * (1/25)
  let k := k + 1
  let (verts, k) := createAsteroidVertices env size k
  (⟨pos, velocity, 0, rotationSpeed, size, verts⟩, k)

/-- `spawnAsteroid` (lines 107-138): a silent no-op when the
population is already at `MAX_ASTEROIDS`, otherwise push one new
asteroid. -/
def spawnAsteroid (env : Env) (size : ℚ) (position : Option Vec2)
    (st : GameState) : GameState :=
  if st.asteroids.length ≥ MAX_ASTEROIDS then st
  else
    let (a, k) := mkAsteroid env st.width st.height size position st.rndIdx
    { st with asteroids := st.asteroids ++ [a], rndIdx := k }

/-- `initAsteroids` (lines 101-105): spawn `count` asteroids of random
size in `[60, 80)`. -/
def initAsteroids (env : Env) : ℕ → GameState → GameState
  | 0, st => st
  | n + 1, st =>
    let size := 60 + env.rnd st.rndIdx * 20
    initAsteroids env n
      (spawnAsteroid env size none { st with rndIdx := st.rndIdx + 1 })

/-- `createShip` (lines 72-85). -/
def createShip (width height : ℚ) : Ship :=
  { position := ⟨width / 2, height / 2⟩
    velocity := ⟨0, 0⟩
    rotation := -(mathPI / 2)
    thrust := false
    vertices := [⟨20, 0⟩, ⟨-14, -12⟩, ⟨-8, 0⟩, ⟨-14, 12⟩] }

/-- `restart` (lines 211-219): full reset of the simulation state. -/
def restart (env : Env) (st : GameState) : GameState :=
  initAsteroids env 5
    { st with
      ship := createShip st.width st.height
      asteroids := []
      bullets := []
      score := 0
      gameOver := false
      invincibleTime := 120 }

/-- `fireBullet` (lines 192-209): in `GameOver` a fire edge restarts;
otherwise push one bullet at the craft nose inheriting half the craft
velocity. -/
def fireBullet (env : Env) (st : GameState) : GameState :=
  if st.gameOver then restart env st
  else
    { st with
      bullets := st.bullets ++
        [{ position :=
             ⟨st.ship.position.x + env.cosf st.ship.rotation * SHIP_SIZE,
              st.ship.position.y + env.sinf st.ship.rotation * SHIP_SIZE⟩
           velocity :=
             ⟨env.cosf st.ship.rotation * BULLET_SPEED +
                st.ship.velocity.x * (1/2),
              env.sinf st.ship.rotation * BULLET_SPEED +
                st.ship.velocity.y * (1/2)⟩
           life := BULLET_LIFE }] }

/-- The `'Space'` branch of the key handler (lines 167-172): fire only
on the released-to-pressed edge, then record the new key level. -/
def handleSpaceKey (env : Env) (pressed : Bool) (st : GameState) :
    GameState :=
  let st := if pressed && !st.keys.fire then fireBullet env st else st
  { st with keys := { st.keys with fire := pressed } }

/-- Lines 224-226 of `update`: decrement the invincibility counter if
positive. -/
def updInvincible (st : GameState) : GameState :=
  if 0 < st.invincibleTime then
    { st with invincibleTime := st.invincibleTime - 1 }
  else st

/-- Lines 228-252 of `update`: rotation intents, thrust, friction,
integration and wrapping of the craft. -/
def updShip (env : Env) (st : GameState) : GameState :=
  let rot := st.ship.rotation
  let rot := if st.keys.left then rot - SHIP_ROTATION_SPEED else rot
  let rot := if st.keys.right then rot + SHIP_ROTATION_SPEED else rot
  let thrust := st.keys.up
  let vel := st.ship.velocity
  let vel :=
    if thrust then
      ⟨vel.x + env.cosf rot * SHIP_THRUST,
       vel.y + env.sinf rot * SHIP_THRUST⟩
    else vel
  let vel : Vec2 := ⟨vel.x * SHIP_FRICTION, vel.y * SHIP_FRICTION⟩
  let pos := wrapPosition st.width st.height
    ⟨st.ship.position.x + vel.x, st.ship.position.y + vel.y⟩
  { st with
    ship := { st.ship with
              rotation := rot, thrust := thrust
              velocity := vel, position := pos } }

/-- Lines 254-261 of `update`: integrate, wrap and age every bullet,
dropping the ones whose lifetime reaches zero. -/
def updBullets (st : GameState) : GameState :=
  { st with
    bullets := st.bullets.filterMap (fun b =>
      let p := wrapPosition st.width st.height
        ⟨b.position.x + b.velocity.x, b.position.y + b.velocity.y⟩
      let l := b.life - 1
      if 0 < l then some { b with position := p, life := l } else none) }

/-- Lines 263-269 of `update`: integrate, rotate and wrap every
asteroid. -/
def updAsteroids (st : GameState) : GameState :=
  { st with
    asteroids := st.asteroids.map (fun a =>
      { a with
        position := wrapPosition st.width st.height
          ⟨a.position.x + a.velocity.x, a.position.y + a.velocity.y⟩
        rotation := a.rotation + a.rotationSpeed }) }

/-- The squared-distance projectile-obstacle test of lines 276-281. -/
def bulletHits (b : Bullet) (a : Asteroid) : Prop :=
  let dx := b.position.x - a.position.x
  let dy := b.position.y - a.position.y
  dx * dx + dy * dy < a.size * a.size

instance (b : Bullet) (a : Asteroid) : Decidable (bulletHits b a) := by
  unfold bulletHits; infer_instance

/-- Lines 281-296 of `update`: the body of the bullet-asteroid hit:
remove bullet `i` and asteroid `j`, award score, and when the removed
size exceeds 25 attempt to spawn two half-size children at the removed
asteroid's position. -/
def processHit (env : Env) (i j : ℕ) (st : GameState) : GameState :=
  let a := st.asteroids.getD j default
  let st1 :=
    { st with
      bullets := st.bullets.eraseIdx i
      asteroids := st.asteroids.eraseIdx j
      score := st.score + ⌊100 / a.size * 10⌋ }
  if a.size > 25 then
    let newSize := a.size * (1/2)
    spawnAsteroid env newSize (some a.position)
      (spawnAsteroid env newSize (some a.position) st1)
  else st1

/-- The inner loop of the collision pass (lines 274-297): for bullet
`i`, scan asteroids downward from index `fuel - 1`; at the first
squared-distance hit perform `processHit` and break. -/
def innerLoop (env : Env) (i : ℕ) : ℕ → GameState → GameState
  | 0, st => st
  | j + 1, st =>
    if bulletHits (st.bullets.getD i default)
         (st.asteroids.getD j default)
    then processHit env i j st
    else innerLoop env i j st

/-- The outer loop of the collision pass (lines 272-298): bullets are
visited downward from index `fuel - 1`. -/
def outerLoop (env : Env) : ℕ → GameState → GameState
  | 0, st => st
  | i + 1, st => outerLoop env i (innerLoop env i st.asteroids.length st)

/-- Lines 271-298 of `update`: the whole bullet-asteroid collision
pass. -/
def bulletCollisions (env : Env) (st : GameState) : GameState :=
  outerLoop env st.bullets.length st

/-- The squared-distance craft-obstacle test of lines 303-308. -/
def shipHits (ship : Ship) (a : Asteroid) : Prop :=
  let dx := ship.position.x - a.position.x
  let dy := ship.position.y - a.position.y
  let collisionRadius := a.size + SHIP_SIZE * (1/2)
  dx * dx + dy * dy < collisionRadius * collisionRadius

instance (ship : Ship) (a : Asteroid) : Decidable (shipHits ship a) := by
  unfold shipHits; infer_instance

/-- Lines 300-314 of `update`: the craft-obstacle pass, only run once
the invincibility counter is non-positive; any hit sets `gameOver`. -/
def shipCollision (st : GameState) : GameState :=
  if st.invincibleTime ≤ 0 ∧ st.asteroids.any (fun a => shipHits st.ship a)
  then { st with gameOver := true }
  else st

/-- Lines 316-319 of `update`: population maintenance — when fewer
than 3 asteroids remain, spawn one of random size in `[50, 80)`. -/
def maintainAsteroids (env : Env) (st : GameState) : GameState :=
  if st.asteroids.length < 3 then
    let size := 50 + env.rnd st.rndIdx * 30
    spawnAsteroid env size none { st with rndIdx := st.rndIdx + 1 }
  else st

/-- `update` (lines 221-320): a no-op in `GameOver`, otherwise the
nine phases in source order. -/
def update (env : Env) (st : GameState) : GameState :=
  if st.gameOver then st
  else
    maintainAsteroids env
      (shipCollision
        (bulletCollisions env
          (updAsteroids
            (updBullets
              (updShip env
                (updInvincible st))))))

/-- A normalized line segment `[x1, y1, x2, y2]` of the line-font
table. -/
structure Seg where
  x1 : ℚ
  y1 : ℚ
  x2 : ℚ
  y2 : ℚ
deriving DecidableEq, Repr, Inhabited

/-- `getCharacterSegments` (lines 443-475): the fixed line-font
lookup table; unknown characters yield `[]`. -/
def getCharacterSegments : Char → List Seg
  | 'S' => [⟨1, 0, 0, 0⟩, ⟨0, 0, 0, 1/2⟩, ⟨0, 1/2, 1, 1/2⟩,
            ⟨1, 1/2, 1, 1⟩, ⟨1, 1, 0, 1⟩]
  | 'C' => [⟨1, 0, 0, 0⟩, ⟨0, 0, 0, 1⟩, ⟨0, 1, 1, 1⟩]
  | 'O' => [⟨0, 0, 1, 0⟩, ⟨1, 0, 1, 1⟩, ⟨1, 1, 0, 1⟩, ⟨0, 1, 0, 0⟩]
  | 'R' => [⟨0, 0, 0, 1⟩, ⟨0, 0, 1, 0⟩, ⟨1, 0, 1, 1/2⟩,
            ⟨1, 1/2, 0, 1/2⟩, ⟨0, 1/2, 1, 1⟩]
  | 'E' => [⟨1, 0, 0, 0⟩, ⟨0, 0, 0, 1⟩, ⟨0, 1/2, 4/5, 1/2⟩, ⟨0, 1, 1, 1⟩]
  | 'G' => [⟨1, 0, 0, 0⟩, ⟨0, 0, 0, 1⟩, ⟨0, 1, 1, 1⟩, ⟨1, 1, 1, 1/2⟩,
            ⟨1, 1/2, 1/2, 1/2⟩]
  | 'A' => [⟨0, 1, 1/2, 0⟩, ⟨1/2, 0, 1, 1⟩, ⟨1/5, 3/5, 4/5, 3/5⟩]
  | 'M' => [⟨0, 1, 0, 0⟩, ⟨0, 0, 1/2, 2/5⟩, ⟨1/2, 2/5, 1, 0⟩, ⟨1, 0, 1, 1⟩]
  | 'V' => [⟨0, 0, 1/2, 1⟩, ⟨1/2, 1, 1, 0⟩]
  | 'P' => [⟨0, 0, 0, 1⟩, ⟨0, 0, 1, 0⟩, ⟨1, 0, 1, 1/2⟩, ⟨1, 1/2, 0, 1/2⟩]
  | 'I' => [⟨1/2, 0, 1/2, 1⟩, ⟨1/5, 0, 4/5, 0⟩, ⟨1/5, 1, 4/5, 1⟩]
  | 'F' => [⟨0, 0, 0, 1⟩, ⟨0, 0, 1, 0⟩, ⟨0, 1/2, 4/5, 1/2⟩]
  | 'T' => [⟨0, 0, 1, 0⟩, ⟨1/2, 0, 1/2, 1⟩]
  | 'N' => [⟨0, 1, 0, 0⟩, ⟨0, 0, 1, 1⟩, ⟨1, 1, 1, 0⟩]
  | 'D' => [⟨0, 0, 0, 1⟩, ⟨0, 0, 4/5, 0⟩, ⟨4/5, 0, 1, 1/2⟩,
            ⟨1, 1/2, 4/5, 1⟩, ⟨4/5, 1, 0, 1⟩]
  | ' ' => []
  | ':' => [⟨1/2, 1/5, 1/2, 3/10⟩, ⟨1/2, 7/10, 1/2, 4/5⟩]
  | '0' => [⟨0, 0, 1, 0⟩, ⟨1, 0, 1, 1⟩, ⟨1, 1, 0, 1⟩, ⟨0, 1, 0, 0⟩,
            ⟨0, 0, 1, 1⟩]
  | '1' => [⟨3/10, 1/5, 1/2, 0⟩, ⟨1/2, 0, 1/2, 1⟩, ⟨1/5, 1, 4/5, 1⟩]
  | '2' => [⟨0, 0, 1, 0⟩, ⟨1, 0, 1, 1/2⟩, ⟨1, 1/2, 0, 1/2⟩,
            ⟨0, 1/2, 0, 1⟩, ⟨0, 1, 1, 1⟩]
  | '3' => [⟨0, 0, 1, 0⟩, ⟨1, 0, 1, 1⟩, ⟨1, 1, 0, 1⟩, ⟨1/5, 1/2, 1, 1/2⟩]
  | '4' => [⟨0, 0, 0, 1/2⟩, ⟨0, 1/2, 1, 1/2⟩, ⟨1, 0, 1, 1⟩]
  | '5' => [⟨1, 0, 0, 0⟩, ⟨0, 0, 0, 1/2⟩, ⟨0, 1/2, 1, 1/2⟩,
            ⟨1, 1/2, 1, 1⟩, ⟨1, 1, 0, 1⟩]
  | '6' => [⟨1, 0, 0, 0⟩, ⟨0, 0, 0, 1⟩, ⟨0, 1, 1, 1⟩, ⟨1, 1, 1, 1/2⟩,
            ⟨1, 1/2, 0, 1/2⟩]
  | '7' => [⟨0, 0, 1, 0⟩, ⟨1, 0, 1/2, 1⟩]
  | '8' => [⟨0, 0, 1, 0⟩, ⟨1, 0, 1, 1⟩, ⟨1, 1, 0, 1⟩, ⟨0, 1, 0, 0⟩,
            ⟨0, 1/2, 1, 1/2⟩]
  | '9' => [⟨0, 1/2, 1, 1/2⟩, ⟨1, 1/2, 1, 0⟩, ⟨1, 0, 0, 0⟩,
            ⟨0, 0, 0, 1/2⟩, ⟨1, 0, 1, 1⟩, ⟨1, 1, 0, 1⟩]
  | _ => []

/-- `drawText` (lines 417-441): characters laid out left to right at a
12-pixel advance, each glyph's normalized segments scaled by
`(charWidth * 0.8, charHeight)`, all colored with the caller color. -/
def drawText (text : List Char) (x y : ℚ) (color : Color) :
    List Vertex :=
  let charWidth : ℚ := 12
  let charHeight : ℚ := 16
  (List.range text.length).flatMap (fun i =>
    let cx := x + (i : ℚ) * charWidth
    (getCharacterSegments (text.getD i ' ')).flatMap (fun seg =>
      [mkVertex (cx + seg.x1 * charWidth * (4/5))
         (y + seg.y1 * charHeight) color,
       mkVertex (cx + seg.x2 * charWidth * (4/5))
         (y + seg.y2 * charHeight) color]))

/-- The rotate-translate applied to local outlines (lines 351-354 for
the ship, lines 383-386 for asteroids). -/
def rotatePoint (env : Env) (center : Vec2) (rotation : ℚ) (v : Vec2) :
    Vec2 :=
  ⟨center.x + v.x * env.cosf rotation - v.y * env.sinf rotation,
   center.y + v.x * env.sinf rotation + v.y * env.cosf rotation⟩

/-- Emits the closed polygon of a transformed outline (the
`(i, (i+1) % n)` loops of lines 356-360 and 388-392). -/
def outlineVerts (pts : List Vec2) (c : Color) : List Vertex :=
  (List.range pts.length).flatMap (fun i =>
    let next := (i + 1) % pts.length
    [mkVertex (pts.getD i default).x (pts.getD i default).y c,
     mkVertex (pts.getD next default).x (pts.getD next default).y c])

/-- The twinkling-star pass of `getVertices` (lines 333-343).  Note
the blue channel is `brightness * 1.2`. -/
def starSection (env : Env) (stars : List Star) (time : ℚ) :
    List Vertex :=
  stars.flatMap (fun star =>
    let twinkle := 1/2 +
      1/2 * env.sinf (time * star.twinkleSpeed + star.twinkleOffset)
    let brightness := star.brightness * twinkle
    let color : Color := ⟨brightness, brightness, brightness * (6/5), 1⟩
    [mkVertex (star.x - 1) star.y color,
     mkVertex (star.x + 1) star.y color])

/-- The ship color of lines 346-348: blink between two fixed colors
while invincible. -/
def shipColor (st : GameState) (time : ℚ) : Color :=
  if 0 < st.invincibleTime ∧ ⌊time * 10⌋ % 2 = 0 then ⟨1/2, 1/2, 1, 1⟩
  else ⟨0, 1, 1/2, 1⟩

/-- The thrust-flame segment of lines 363-377 (its length jitter peeks
at the random stream). -/
def flameSection (env : Env) (st : GameState) : List Vertex :=
  if st.ship.thrust then
    let flameSize := SHIP_SIZE * (3/5) * (4/5 + env.rnd st.rndIdx * (2/5))
    let flameBase : Vec2 :=
      ⟨st.ship.position.x - env.cosf st.ship.rotation * SHIP_SIZE * (2/5),
       st.ship.position.y - env.sinf st.ship.rotation * SHIP_SIZE * (2/5)⟩
    let flameTip : Vec2 :=
      ⟨flameBase.x - env.cosf st.ship.rotation * flameSize,
       flameBase.y - env.sinf st.ship.rotation * flameSize⟩
    [mkVertex flameBase.x flameBase.y ⟨1, 1/2, 0, 1⟩,
     ⟨flameTip.x, flameTip.y, 1, 4/5, 0, 1⟩]
  else []

/-- The asteroid pass of lines 380-393. -/
def asteroidSection (env : Env) (st : GameState) : List Vertex :=
  st.asteroids.flatMap (fun a =>
    outlineVerts (a.vertices.map (rotatePoint env a.position a.rotation))
      ⟨7/10, 7/10, 7/10, 1⟩)

/-- The bullet crosshair pass of lines 395-403. -/
def bulletSection (st : GameState) : List Vertex :=
  st.bullets.flatMap (fun b =>
    [mkVertex (b.position.x - 3) b.position.y ⟨1, 1, 0, 1⟩,
     mkVertex (b.position.x + 3) b.position.y ⟨1, 1, 0, 1⟩,
     mkVertex b.position.x (b.position.y - 3) ⟨1, 1, 0, 1⟩,
     mkVertex b.position.x (b.position.y + 3) ⟨1, 1, 0, 1⟩])

/-- `getVertices` (lines 329-415): the per-frame geometry snapshot, in
source order — stars, ship outline and flame (suppressed in
`GameOver`), asteroids, bullets, score readout, `GameOver` banner. -/
def getVertices (env : Env) (st : GameState) (time : ℚ) : List Vertex :=
  starSection env st.stars time
    ++ (if st.gameOver then []
        else
          outlineVerts
            (st.ship.vertices.map
              (rotatePoint env st.ship.position st.ship.rotation))
            (shipColor st time)
            ++ flameSection env st)
    ++ asteroidSection env st
    ++ bulletSection st
    ++ drawText ("SCORE: " ++ toString st.score).toList 20 30 ⟨1, 1, 1, 1⟩
    ++ (if st.gameOver then
          drawText "GAME OVER".toList (st.width / 2 - 80) (st.height / 2)
            ⟨1, 0, 0, 1⟩
            ++ drawText "PRESS FIRE TO RESTART".toList
                 (st.width / 2 - 150) (st.height / 2 + 30) ⟨1, 1, 0, 1⟩
        else [])

/-! ### Frame lemmas: which fields each phase leaves untouched -/

@[simp] theorem spawnAsteroid_ship (env : Env) (sz : ℚ) (p : Option Vec2)
    (st : GameState) : (spawnAsteroid env sz p st).ship = st.ship := by
  unfold spawnAsteroid; split <;> rfl

@[simp] theorem spawnAsteroid_width (env : Env) (sz : ℚ) (p : Option Vec2)
    (st : GameState) : (spawnAsteroid env sz p st).width = st.width := by
  unfold spawnAsteroid; split <;> rfl

@[simp] theorem spawnAsteroid_height (env : Env) (sz : ℚ) (p : Option Vec2)
    (st : GameState) : (spawnAsteroid env sz p st).height = st.height := by
  unfold spawnAsteroid; split <;> rfl

@[simp] theorem spawnAsteroid_gameOver (env : Env) (sz : ℚ)
    (p : Option Vec2) (st : GameState) :
    (spawnAsteroid env sz p st).gameOver = st.gameOver := by
  unfold spawnAsteroid; split <;> rfl

@[simp] theorem spawnAsteroid_bullets (env : Env) (sz : ℚ)
    (p : Option Vec2) (st : GameState) :
    (spawnAsteroid env sz p st).bullets = st.bullets := by
  unfold spawnAsteroid; split <;> rfl

@[simp] theorem spawnAsteroid_invincibleTime (env : Env) (sz : ℚ)
    (p : Option Vec2) (st : GameState) :
    (spawnAsteroid env sz p st).invincibleTime = st.invincibleTime := by
  unfold spawnAsteroid; split <;> rfl

@[simp] theorem spawnAsteroid_keys (env : Env) (sz : ℚ) (p : Option Vec2)
    (st : GameState) : (spawnAsteroid env sz p st).keys = st.keys := by
  unfold spawnAsteroid; split <;> rfl

@[simp] theorem processHit_ship (env : Env) (i j : ℕ) (st : GameState) :
    (processHit env i j st).ship = st.ship := by
  unfold processHit; dsimp only; split <;> simp

@[simp] theorem processHit_width (env : Env) (i j : ℕ) (st : GameState) :
    (processHit env i j st).width = st.width := by
  unfold processHit; dsimp only; split <;> simp

@[simp] theorem processHit_height (env : Env) (i j : ℕ) (st : GameState) :
    (processHit env i j st).height = st.height := by
  unfold processHit; dsimp only; split <;> simp

@[simp] theorem processHit_gameOver (env : Env) (i j : ℕ)
    (st : GameState) : (processHit env i j st).gameOver = st.gameOver := by
  unfold processHit; dsimp only; split <;> simp

@[simp] theorem processHit_invincibleTime (env : Env) (i j : ℕ)
    (st : GameState) :
    (processHit env i j st).invincibleTime = st.invincibleTime := by
  unfold processHit; dsimp only; split <;> simp

@[simp] theorem processHit_keys (env : Env) (i j : ℕ) (st : GameState) :
    (processHit env i j st).keys = st.keys := by
  unfold processHit; dsimp only; split <;> simp

@[simp] theorem processHit_bullets (env : Env) (i j : ℕ)
    (st : GameState) :
    (processHit env i j st).bullets = st.bullets.eraseIdx i := by
  unfold processHit; dsimp only; split <;> simp

@[simp] theorem innerLoop_ship (env : Env) (i : ℕ) (f : ℕ)
    (st : GameState) : (innerLoop env i f st).ship = st.ship := by
  induction f generalizing st with
  | zero => rfl
  | succ g ih => unfold innerLoop; split
                 · simp
                 · exact ih _

@[simp] theorem innerLoop_width (env : Env) (i : ℕ) (f : ℕ)
    (st : GameState) : (innerLoop env i f st).width = st.width := by
  induction f generalizing st with
  | zero => rfl
  | succ g ih => unfold innerLoop; split
                 · simp
                 · exact ih _

@[simp] theorem innerLoop_height (env : Env) (i : ℕ) (f : ℕ)
    (st : GameState) : (innerLoop env i f st).height = st.height := by
  induction f generalizing st with
  | zero => rfl
  | succ g ih => unfold innerLoop; split
                 · simp
                 · exact ih _

@[simp] theorem innerLoop_gameOver (env : Env) (i : ℕ) (f : ℕ)
    (st : GameState) : (innerLoop env i f st).gameOver = st.gameOver := by
  induction f generalizing st with
  | zero => rfl
  | succ g ih => unfold innerLoop; split
                 · simp
                 · exact ih _

@[simp] theorem innerLoop_invincibleTime (env : Env) (i : ℕ) (f : ℕ)
    (st : GameState) :
    (innerLoop env i f st).invincibleTime = st.invincibleTime := by
  induction f generalizing st with
  | zero => rfl
  | succ g ih => unfold innerLoop; split
                 · simp
                 · exact ih _

@[simp] theorem innerLoop_keys (env : Env) (i : ℕ) (f : ℕ)
    (st : GameState) : (innerLoop env i f st).keys = st.keys := by
  induction f generalizing st with
  | zero => rfl
  | succ g ih => unfold innerLoop; split
                 · simp
                 · exact ih _

/-- The inner loop either leaves the bullet list alone (no hit) or
removes exactly bullet `i` (first hit, then break). -/
theorem innerLoop_bullets (env : Env) (i : ℕ) (f : ℕ) (st : GameState) :
    (innerLoop env i f st).bullets = st.bullets ∨
      (innerLoop env i f st).bullets = st.bullets.eraseIdx i := by
  induction f generalizing st with
  | zero => exact Or.inl rfl
  | succ g ih => unfold innerLoop; split
                 · exact Or.inr (by simp)
                 · exact ih _

@[simp] theorem outerLoop_ship (env : Env) (f : ℕ) (st : GameState) :
    (outerLoop env f st).ship = st.ship := by
  induction f generalizing st with
  | zero => rfl
  | succ g ih => unfold outerLoop; simp [ih]

@[simp] theorem outerLoop_width (env : Env) (f : ℕ) (st : GameState) :
    (outerLoop env f st).width = st.width := by
  induction f generalizing st with
  | zero => rfl
  | succ g ih => unfold outerLoop; simp [ih]

@[simp] theorem outerLoop_height (env : Env) (f : ℕ) (st : GameState) :
    (outerLoop env f st).height = st.height := by
  induction f generalizing st with
  | zero => rfl
  | succ g ih => unfold outerLoop; simp [ih]

@[simp] theorem outerLoop_gameOver (env : Env) (f : ℕ) (st : GameState) :
    (outerLoop env f st).gameOver = st.gameOver := by
  induction f generalizing st with
  | zero => rfl
  | succ g ih => unfold outerLoop; simp [ih]

@[simp] theorem outerLoop_invincibleTime (env : Env) (f : ℕ)
    (st : GameState) :
    (outerLoop env f st).invincibleTime = st.invincibleTime := by
  induction f generalizing st with
  | zero => rfl
  | succ g ih => unfold outerLoop; simp [ih]

@[simp] theorem outerLoop_keys (env : Env) (f : ℕ) (st : GameState) :
    (outerLoop env f st).keys = st.keys := by
  induction f generalizing st with
  | zero => rfl
  | succ g ih => unfold outerLoop; simp [ih]

/-- Bullets surviving the collision pass were already present before
it. -/
theorem mem_of_mem_outerLoop_bullets (env : Env) (f : ℕ)
    (st : GameState) {b : Bullet} (hb : b ∈ (outerLoop env f st).bullets) :
    b ∈ st.bullets := by
  induction f generalizing st with
  | zero => exact hb
  | succ g ih =>
    unfold outerLoop at hb
    have h := ih _ hb
    rcases innerLoop_bullets env g st.asteroids.length st with h' | h'
    · rwa [h'] at h
    · rw [h'] at h
      exact (List.eraseIdx_sublist st.bullets g).mem h

@[simp] theorem updInvincible_ship (st : GameState) :
    (updInvincible st).ship = st.ship := by
  unfold updInvincible; split <;> rfl

@[simp] theorem updInvincible_width (st : GameState) :
    (updInvincible st).width = st.width := by
  unfold updInvincible; split <;> rfl

@[simp] theorem updInvincible_height (st : GameState) :
    (updInvincible st).height = st.height := by
  unfold updInvincible; split <;> rfl

@[simp] theorem updInvincible_gameOver (st : GameState) :
    (updInvincible st).gameOver = st.gameOver := by
  unfold updInvincible; split <;> rfl

@[simp] theorem updInvincible_bullets (st : GameState) :
    (updInvincible st).bullets = st.bullets := by
  unfold updInvincible; split <;> rfl

@[simp] theorem updInvincible_asteroids (st : GameState) :
    (updInvincible st).asteroids = st.asteroids := by
  unfold updInvincible; split <;> rfl

@[simp] theorem updInvincible_keys (st : GameState) :
    (updInvincible st).keys = st.keys := by
  unfold updInvincible; split <;> rfl

@[simp] theorem updShip_width (env : Env) (st : GameState) :
    (updShip env st).width = st.width := rfl

@[simp] theorem updShip_height (env : Env) (st : GameState) :
    (updShip env st).height = st.height := rfl

@[simp] theorem updShip_gameOver (env : Env) (st : GameState) :
    (updShip env st).gameOver = st.gameOver := rfl

@[simp] theorem updShip_bullets (env : Env) (st : GameState) :
    (updShip env st).bullets = st.bullets := rfl

@[simp] theorem updShip_asteroids (env : Env) (st : GameState) :
    (updShip env st).asteroids = st.asteroids := rfl

@[simp] theorem updShip_invincibleTime (env : Env) (st : GameState) :
    (updShip env st).invincibleTime = st.invincibleTime := rfl

@[simp] theorem updShip_keys (env : Env) (st : GameState) :
    (updShip env st).keys = st.keys := rfl

@[simp] theorem updBullets_ship (st : GameState) :
    (updBullets st).ship = st.ship := rfl

@[simp] theorem updBullets_width (st : GameState) :
    (updBullets st).width = st.width := rfl

@[simp] theorem updBullets_height (st : GameState) :
    (updBullets st).height = st.height := rfl

@[simp] theorem updBullets_gameOver (st : GameState) :
    (updBullets st).gameOver = st.gameOver := rfl

@[simp] theorem updBullets_asteroids (st : GameState) :
    (updBullets st).asteroids = st.asteroids := rfl

@[simp] theorem updBullets_invincibleTime (st : GameState) :
    (updBullets st).invincibleTime = st.invincibleTime := rfl

@[simp] theorem updBullets_keys (st : GameState) :
    (updBullets st).keys = st.keys := rfl

@[simp] theorem updAsteroids_ship (st : GameState) :
    (updAsteroids st).ship = st.ship := rfl

@[simp] theorem updAsteroids_width (st : GameState) :
    (updAsteroids st).width = st.width := rfl

@[simp] theorem updAsteroids_height (st : GameState) :
    (updAsteroids st).height = st.height := rfl

@[simp] theorem updAsteroids_gameOver (st : GameState) :
    (updAsteroids st).gameOver = st.gameOver := rfl

@[simp] theorem updAsteroids_bullets (st : GameState) :
    (updAsteroids st).bullets = st.bullets := rfl

@[simp] theorem updAsteroids_invincibleTime (st : GameState) :
    (updAsteroids st).invincibleTime = st.invincibleTime := rfl

@[simp] theorem updAsteroids_keys (st : GameState) :
    (updAsteroids st).keys = st.keys := rfl

@[simp] theorem shipCollision_ship (st : GameState) :
    (shipCollision st).ship = st.ship := by
  unfold shipCollision; split <;> rfl

@[simp] theorem shipCollision_width (st : GameState) :
    (shipCollision st).width = st.width := by
  unfold shipCollision; split <;> rfl

@[simp] theorem shipCollision_height (st : GameState) :
    (shipCollision st).height = st.height := by
  unfold shipCollision; split <;> rfl

@[simp] theorem shipCollision_bullets (st : GameState) :
    (shipCollision st).bullets = st.bullets := by
  unfold shipCollision; split <;> rfl

@[simp] theorem shipCollision_asteroids (st : GameState) :
    (shipCollision st).asteroids = st.asteroids := by
  unfold shipCollision; split <;> rfl

@[simp] theorem shipCollision_invincibleTime (st : GameState) :
    (shipCollision st).invincibleTime = st.invincibleTime := by
  unfold shipCollision; split <;> rfl

@[simp] theorem shipCollision_keys (st : GameState) :
    (shipCollision st).keys = st.keys := by
  unfold shipCollision; split <;> rfl

@[simp] theorem maintainAsteroids_ship (env : Env) (st : GameState) :
    (maintainAsteroids env st).ship = st.ship := by
  unfold maintainAsteroids; dsimp only; split <;> simp

@[simp] theorem maintainAsteroids_width (env : Env) (st : GameState) :
    (maintainAsteroids env st).width = st.width := by
  unfold maintainAsteroids; dsimp only; split <;> simp

@[simp] theorem maintainAsteroids_height (env : Env) (st : GameState) :
    (maintainAsteroids env st).height = st.height := by
  unfold maintainAsteroids; dsimp only; split <;> simp

@[simp] theorem maintainAsteroids_gameOver (env : Env) (st : GameState) :
    (maintainAsteroids env st).gameOver = st.gameOver := by
  unfold maintainAsteroids; dsimp only; split <;> simp

@[simp] theorem maintainAsteroids_bullets (env : Env) (st : GameState) :
    (maintainAsteroids env st).bullets = st.bullets := by
  unfold maintainAsteroids; dsimp only; split <;> simp

@[simp] theorem maintainAsteroids_invincibleTime (env : Env)
    (st : GameState) :
    (maintainAsteroids env st).invincibleTime = st.invincibleTime := by
  unfold maintainAsteroids; dsimp only; split <;> simp

@[simp] theorem maintainAsteroids_keys (env : Env) (st : GameState) :
    (maintainAsteroids env st).keys = st.keys := by
  unfold maintainAsteroids; dsimp only; split <;> simp

@[simp] theorem bulletCollisions_ship (env : Env) (st : GameState) :
    (bulletCollisions env st).ship = st.ship := by
  unfold bulletCollisions; simp

@[simp] theorem bulletCollisions_width (env : Env) (st : GameState) :
    (bulletCollisions env st).width = st.width := by
  unfold bulletCollisions; simp

@[simp] theorem bulletCollisions_height (env : Env) (st : GameState) :
    (bulletCollisions env st).height = st.height := by
  unfold bulletCollisions; simp

@[simp] theorem bulletCollisions_gameOver (env : Env) (st : GameState) :
    (bulletCollisions env st).gameOver = st.gameOver := by
  unfold bulletCollisions; simp

@[simp] theorem bulletCollisions_invincibleTime (env : Env)
    (st : GameState) :
    (bulletCollisions env st).invincibleTime = st.invincibleTime := by
  unfold bulletCollisions; simp

@[simp] theorem bulletCollisions_keys (env : Env) (st : GameState) :
    (bulletCollisions env st).keys = st.keys := by
  unfold bulletCollisions; simp

/-- In `Playing`, `update` is the composition of its nine phases in
source order. -/
theorem update_of_playing (env : Env) (st : GameState)
    (hg : st.gameOver = false) :
    update env st =
      maintainAsteroids env
        (shipCollision
          (bulletCollisions env
            (updAsteroids
              (updBullets (updShip env (updInvincible st)))))) := by
  unfold update; rw [hg]; simp

/-- The craft position produced by the ship phase is a `wrapPosition`
image. -/
theorem updShip_ship_position (env : Env) (st : GameState) :
    ∃ p, (updShip env st).ship.position =
      wrapPosition st.width st.height p :=
  ⟨_, rfl⟩

/-- Every bullet surviving the bullet phase sits at a `wrapPosition`
image. -/
theorem mem_updBullets_position (st : GameState) {b : Bullet}
    (hb : b ∈ (updBullets st).bullets) :
    ∃ p, b.position = wrapPosition st.width st.height p := by
  unfold updBullets at hb
  dsimp only at hb
  rw [List.mem_filterMap] at hb
  obtain ⟨b₀, _, hmk⟩ := hb
  split at hmk
  · cases hmk
    exact ⟨_, rfl⟩
  · cases hmk

/-! ### Population-bound lemmas -/

theorem spawnAsteroid_length_le (env : Env) (sz : ℚ) (p : Option Vec2)
    (st : GameState) (h : st.asteroids.length ≤ 15) :
    (spawnAsteroid env sz p st).asteroids.length ≤ 15 := by
  unfold spawnAsteroid
  split
  · exact h
  · rename_i hn
    simp only [MAX_ASTEROIDS, ge_iff_le, not_le] at hn
    simp only [List.length_append, List.length_cons, List.length_nil]
    omega

theorem processHit_length_le (env : Env) (i j : ℕ) (st : GameState)
    (h : st.asteroids.length ≤ 15) :
    (processHit env i j st).asteroids.length ≤ 15 := by
  have herase : (st.asteroids.eraseIdx j).length ≤ 15 :=
    le_trans (List.Sublist.length_le (List.eraseIdx_sublist _ _)) h
  unfold processHit
  dsimp only
  split
  · exact spawnAsteroid_length_le _ _ _ _
      (spawnAsteroid_length_le _ _ _ _ herase)
  · exact herase

theorem innerLoop_length_le (env : Env) (i : ℕ) (f : ℕ) (st : GameState)
    (h : st.asteroids.length ≤ 15) :
    (innerLoop env i f st).asteroids.length ≤ 15 := by
  induction f generalizing st with
  | zero => exact h
  | succ g ih =>
    unfold innerLoop; split
    · exact processHit_length_le _ _ _ _ h
    · exact ih _ h

theorem outerLoop_length_le (env : Env) (f : ℕ) (st : GameState)
    (h : st.asteroids.length ≤ 15) :
    (outerLoop env f st).asteroids.length ≤ 15 := by
  induction f generalizing st with
  | zero => exact h
  | succ g ih =>
    unfold outerLoop
    exact ih _ (innerLoop_length_le _ _ _ _ h)

theorem maintainAsteroids_length_le (env : Env) (st : GameState)
    (h : st.asteroids.length ≤ 15) :
    (maintainAsteroids env st).asteroids.length ≤ 15 := by
  unfold maintainAsteroids
  dsimp only
  split
  · exact spawnAsteroid_length_le _ _ _ _ h
  · exact h

/-- When fewer than 3 asteroids remain, population maintenance appends
exactly one. -/
theorem maintainAsteroids_length_of_lt (env : Env) (st : GameState)
    (h : st.asteroids.length < 3) :
    (maintainAsteroids env st).asteroids.length =
      st.asteroids.length + 1 := by
  unfold maintainAsteroids
  dsimp only
  rw [if_pos h]
  unfold spawnAsteroid
  rw [if_neg (by simp only [MAX_ASTEROIDS, ge_iff_le, not_le]; omega)]
  simp

@[simp] theorem updAsteroids_length (st : GameState) :
    (updAsteroids st).asteroids.length = st.asteroids.length := by
  unfold updAsteroids; simp

/-! ### Claim theorems (first batch) -/

/-- C1 (amended): when not in `GameOver` (where `update()` is a no-op),
after `update()` the craft position and every projectile position lie
in the CLOSED box `[0, width] × [0, height]`; the half-open box of the
original claim is refuted by `c1_counterexample` below, since
`wrapPosition` maps negative coordinates to the boundary value itself. -/
theorem update_positions_in_closed_box (env : Env) (st : GameState)
    (hw : 0 ≤ st.width) (hh : 0 ≤ st.height) (hg : st.gameOver = false) :
    (0 ≤ (update env st).ship.position.x ∧
      (update env st).ship.position.x ≤ st.width ∧
      0 ≤ (update env st).ship.position.y ∧
      (update env st).ship.position.y ≤ st.height) ∧
    ∀ b ∈ (update env st).bullets,
      0 ≤ b.position.x ∧ b.position.x ≤ st.width ∧
      0 ≤ b.position.y ∧ b.position.y ≤ st.height := by
  rw [update_of_playing env st hg]
  constructor
  · simp only [maintainAsteroids_ship, shipCollision_ship,
      bulletCollisions_ship, updAsteroids_ship, updBullets_ship]
    obtain ⟨p, hp⟩ := updShip_ship_position env (updInvincible st)
    rw [hp, updInvincible_width, updInvincible_height]
    exact wrapPosition_mem_box st.width st.height hw hh p
  · intro b hb
    simp only [maintainAsteroids_bullets, shipCollision_bullets] at hb
    unfold bulletCollisions at hb
    have hb2 := mem_of_mem_outerLoop_bullets _ _ _ hb
    rw [updAsteroids_bullets] at hb2
    obtain ⟨p, hp⟩ := mem_updBullets_position _ hb2
    rw [hp, updShip_width, updShip_height, updInvincible_width,
      updInvincible_height]
    exact wrapPosition_mem_box st.width st.height hw hh p

/-- C4: the obstacle population never exceeds 15 across an `update()`
(regardless of how many splits occur inside the collision pass), and
any spawn attempt with the population already at 15 leaves the state
entirely unchanged. -/
theorem obstacle_population_bounded (env : Env) (st : GameState) :
    (st.asteroids.length ≤ 15 → (update env st).asteroids.length ≤ 15) ∧
    (15 ≤ st.asteroids.length →
      ∀ sz p, spawnAsteroid env sz p st = st) := by
  constructor
  · intro h
    unfold update
    split
    · exact h
    · apply maintainAsteroids_length_le
      rw [shipCollision_asteroids]
      unfold bulletCollisions
      apply outerLoop_length_le
      simpa using h
  · intro h sz p
    unfold spawnAsteroid
    rw [if_pos (by simpa [MAX_ASTEROIDS] using h)]

/-- C5 (amended): if fewer than 3 obstacles remain before `update()`
and no projectile is in flight, the count after `update()` is exactly
one more than before — a single maintenance spawn per frame, which
need not restore the floor of 3 (see `c5_counterexample`). -/
theorem maintenance_spawns_exactly_one (env : Env) (st : GameState)
    (hg : st.gameOver = false) (hb : st.bullets = [])
    (hlt : st.asteroids.length < 3) :
    (update env st).asteroids.length = st.asteroids.length + 1 := by
  rw [update_of_playing env st hg]
  have h1 : (updBullets (updShip env (updInvincible st))).bullets = [] := by
    unfold updBullets
    simp [hb]
  have h2 : bulletCollisions env
      (updAsteroids (updBullets (updShip env (updInvincible st)))) =
      updAsteroids (updBullets (updShip env (updInvincible st))) := by
    unfold bulletCollisions
    rw [updAsteroids_bullets, h1]
    rfl
  rw [h2]
  have h3 : (shipCollision
      (updAsteroids (updBullets (updShip env (updInvincible st))))).asteroids.length =
      st.asteroids.length := by
    rw [shipCollision_asteroids, updAsteroids_length, updBullets_asteroids,
      updShip_asteroids, updInvincible_asteroids]
  rw [maintainAsteroids_length_of_lt _ _ (by rw [h3]; exact hlt), h3]

/-- C10: a single `wrapPosition` call lands in the CLOSED box
`[0, width] × [0, height]` (the boundary values are attainable, e.g.
from a negative input coordinate), and `wrapPosition` is idempotent. -/
theorem wrapPosition_closed_box_idem (width height : ℚ) (pos : Vec2)
    (hw : 0 < width) (hh : 0 < height) :
    (0 ≤ (wrapPosition width height pos).x ∧
      (wrapPosition width height pos).x ≤ width ∧
      0 ≤ (wrapPosition width height pos).y ∧
      (wrapPosition width height pos).y ≤ height) ∧
    (∃ q : Vec2, (wrapPosition width height q).x = width ∧
      (wrapPosition width height q).y = height) ∧
    wrapPosition width height (wrapPosition width height pos) =
      wrapPosition width height pos := by
  refine ⟨wrapPosition_mem_box width height hw.le hh.le pos, ⟨⟨-1, -1⟩, ?_⟩,
    wrapPosition_idem width height pos⟩
  unfold wrapPosition
  norm_num

/-! ### Invincibility lemmas -/

/-- `wrapPosition` is the identity on the closed box. -/
theorem wrapPosition_eq_self (width height : ℚ) (p : Vec2)
    (hx0 : 0 ≤ p.x) (hx1 : p.x ≤ width) (hy0 : 0 ≤ p.y)
    (hy1 : p.y ≤ height) : wrapPosition width height p = p := by
  unfold wrapPosition
  dsimp only
  rw [if_neg (not_lt.2 hx0), if_neg (not_lt.2 hx1),
    if_neg (not_lt.2 hy0), if_neg (not_lt.2 hy1)]

/-- While the decremented invincibility counter is still positive, one
`update` in `Playing` cannot set `gameOver` and decrements the counter
by exactly one. -/
theorem update_safe_step (env : Env) (st : GameState)
    (hg : st.gameOver = false) (hi : 1 < st.invincibleTime) :
    (update env st).gameOver = false ∧
      (update env st).invincibleTime = st.invincibleTime - 1 := by
  rw [update_of_playing env st hg]
  have hinv : (updInvincible st).invincibleTime = st.invincibleTime - 1 := by
    unfold updInvincible
    rw [if_pos (by omega)]
  refine ⟨?_, by simp [hinv]⟩
  simp only [maintainAsteroids_gameOver]
  unfold shipCollision
  rw [if_neg ?_]
  · simp [hg]
  · rintro ⟨hle, -⟩
    simp only [bulletCollisions_invincibleTime, updAsteroids_invincibleTime,
      updBullets_invincibleTime, updShip_invincibleTime, hinv] at hle
    omega

/-- From a fresh 120-frame invincibility window, the first 119 updates
cannot reach `GameOver`, and the counter counts down one per frame. -/
theorem update_safe_iter (env : Env) (st : GameState)
    (hg : st.gameOver = false) (hiv : st.invincibleTime = 120) :
    ∀ k : ℕ, k ≤ 119 → ((update env)^[k] st).gameOver = false ∧
      ((update env)^[k] st).invincibleTime = 120 - (k : ℤ) := by
  intro k hk
  induction k with
  | zero => exact ⟨hg, by simpa using hiv⟩
  | succ n ih =>
    have h := ih (by omega)
    rw [Function.iterate_succ_apply']
    have step := update_safe_step env _ h.1 (by rw [h.2]; omega)
    refine ⟨step.1, ?_⟩
    rw [step.2, h.2]
    push_cast
    ring

/-- The ship phase leaves a motionless, in-bounds craft in place when
no intents are held. -/
theorem updShip_static (env : Env) (st : GameState)
    (hkl : st.keys.left = false) (hkr : st.keys.right = false)
    (hku : st.keys.up = false)
    (hv : st.ship.velocity = ⟨0, 0⟩)
    (hx0 : 0 ≤ st.ship.position.x) (hx1 : st.ship.position.x ≤ st.width)
    (hy0 : 0 ≤ st.ship.position.y)
    (hy1 : st.ship.position.y ≤ st.height) :
    (updShip env st).ship.position = st.ship.position := by
  unfold updShip
  dsimp only
  rw [hkl, hkr, hku, hv]
  simp only [Bool.false_eq_true, if_false]
  norm_num
  exact wrapPosition_eq_self st.width st.height st.ship.position hx0 hx1 hy0 hy1

/-- A motionless, non-rotating, in-bounds asteroid survives the
asteroid integration phase unchanged. -/
theorem updAsteroids_mem_static (st : GameState) {a : Asteroid}
    (ha : a ∈ st.asteroids) (hav : a.velocity = ⟨0, 0⟩)
    (hrs : a.rotationSpeed = 0)
    (hx0 : 0 ≤ a.position.x) (hx1 : a.position.x ≤ st.width)
    (hy0 : 0 ≤ a.position.y) (hy1 : a.position.y ≤ st.height) :
    a ∈ (updAsteroids st).asteroids := by
  have key : ({ a with
      position := wrapPosition st.width st.height
        ⟨a.position.x + a.velocity.x, a.position.y + a.velocity.y⟩
      rotation := a.rotation + a.rotationSpeed } : Asteroid) = a := by
    rw [hav, hrs]
    dsimp only
    rw [add_zero, add_zero,
      show (⟨a.position.x, a.position.y⟩ : Vec2) = a.position from rfl,
      wrapPosition_eq_self st.width st.height a.position hx0 hx1 hy0 hy1,
      add_zero, ← hav, ← hrs]
  unfold updAsteroids
  dsimp only
  exact List.mem_map.2 ⟨a, ha, key⟩

/-- On an update entered with invincibility counter ≤ 1 (so the
decremented counter is no longer positive), a motionless craft
overlapping a motionless obstacle is killed: `gameOver` becomes
true. -/
theorem update_kill (env : Env) (st : GameState) (a : Asteroid)
    (hg : st.gameOver = false) (hi : st.invincibleTime ≤ 1)
    (hkl : st.keys.left = false) (hkr : st.keys.right = false)
    (hku : st.keys.up = false)
    (hv : st.ship.velocity = ⟨0, 0⟩)
    (hx0 : 0 ≤ st.ship.position.x) (hx1 : st.ship.position.x ≤ st.width)
    (hy0 : 0 ≤ st.ship.position.y) (hy1 : st.ship.position.y ≤ st.height)
    (hbul : st.bullets = [])
    (ha : a ∈ st.asteroids) (hav : a.velocity = ⟨0, 0⟩)
    (hrs : a.rotationSpeed = 0)
    (hax0 : 0 ≤ a.position.x) (hax1 : a.position.x ≤ st.width)
    (hay0 : 0 ≤ a.position.y) (hay1 : a.position.y ≤ st.height)
    (hover : shipHits st.ship a) :
    (update env st).gameOver = true := by
  rw [update_of_playing env st hg]
  have hkeys1 : (updInvincible st).keys = st.keys := updInvincible_keys st
  have hship2 :
      (updShip env (updInvincible st)).ship.position = st.ship.position := by
    have h := updShip_static env (updInvincible st)
      (by rw [hkeys1]; exact hkl) (by rw [hkeys1]; exact hkr)
      (by rw [hkeys1]; exact hku)
      (by rw [updInvincible_ship]; exact hv)
      (by rw [updInvincible_ship]; exact hx0)
      (by rw [updInvincible_ship, updInvincible_width]; exact hx1)
      (by rw [updInvincible_ship]; exact hy0)
      (by rw [updInvincible_ship, updInvincible_height]; exact hy1)
    rw [h, updInvincible_ship]
  have hbul3 :
      (updBullets (updShip env (updInvincible st))).bullets = [] := by
    unfold updBullets
    simp [hbul]
  have hcoll : bulletCollisions env
      (updAsteroids (updBullets (updShip env (updInvincible st)))) =
      updAsteroids (updBullets (updShip env (updInvincible st))) := by
    unfold bulletCollisions
    rw [updAsteroids_bullets, hbul3]
    rfl
  rw [hcoll]
  set s4 := updAsteroids (updBullets (updShip env (updInvincible st)))
    with hs4
  have hmem : a ∈ s4.asteroids := by
    rw [hs4]
    apply updAsteroids_mem_static
    · rw [updBullets_asteroids, updShip_asteroids, updInvincible_asteroids]
      exact ha
    · exact hav
    · exact hrs
    · exact hax0
    · rw [updBullets_width, updShip_width, updInvincible_width]
      exact hax1
    · exact hay0
    · rw [updBullets_height, updShip_height, updInvincible_height]
      exact hay1
  have hinv4 : s4.invincibleTime ≤ 0 := by
    rw [hs4]
    simp only [updAsteroids_invincibleTime, updBullets_invincibleTime,
      updShip_invincibleTime]
    unfold updInvincible
    split
    · dsimp only
      omega
    · omega
  have hhit : shipHits s4.ship a := by
    have hpos : s4.ship.position = st.ship.position := by
      rw [hs4]
      simp only [updAsteroids_ship, updBullets_ship]
      exact hship2
    unfold shipHits at hover ⊢
    rw [hpos]
    exact hover
  have hany : s4.asteroids.any (fun x => shipHits s4.ship x) = true :=
    List.any_eq_true.2 ⟨a, hmem, decide_eq_true hhit⟩
  simp only [maintainAsteroids_gameOver]
  unfold shipCollision
  rw [if_pos ⟨hinv4, hany⟩]

/-- `spawnAsteroid` only appends: old members remain. -/
theorem spawnAsteroid_mem (env : Env) (sz : ℚ) (p : Option Vec2)
    (st : GameState) {a : Asteroid} (ha : a ∈ st.asteroids) :
    a ∈ (spawnAsteroid env sz p st).asteroids := by
  unfold spawnAsteroid
  split
  · exact ha
  · exact List.mem_append_left _ ha

/-- Population maintenance only appends: old members remain. -/
theorem maintainAsteroids_mem (env : Env) (st : GameState) {a : Asteroid}
    (ha : a ∈ st.asteroids) :
    a ∈ (maintainAsteroids env st).asteroids := by
  unfold maintainAsteroids
  dsimp only
  split
  · exact spawnAsteroid_mem _ _ _ _ ha
  · exact ha

/-- While the decremented counter is still positive, the craft-obstacle
pass is skipped entirely. -/
theorem shipCollision_of_invincible (st : GameState)
    (h : 0 < st.invincibleTime) : shipCollision st = st := by
  unfold shipCollision
  rw [if_neg]
  rintro ⟨h1, -⟩
  omega

/-- The ship phase leaves a motionless, in-bounds, non-thrusting craft
entirely unchanged when no intents are held. -/
theorem updShip_fix (env : Env) (st : GameState)
    (hkl : st.keys.left = false) (hkr : st.keys.right = false)
    (hku : st.keys.up = false) (hthr : st.ship.thrust = false)
    (hv : st.ship.velocity = ⟨0, 0⟩)
    (hx0 : 0 ≤ st.ship.position.x) (hx1 : st.ship.position.x ≤ st.width)
    (hy0 : 0 ≤ st.ship.position.y)
    (hy1 : st.ship.position.y ≤ st.height) :
    (updShip env st).ship = st.ship := by
  unfold updShip
  dsimp only
  rw [hkl, hkr, hku, hv]
  norm_num
  rw [wrapPosition_eq_self st.width st.height st.ship.position hx0 hx1
    hy0 hy1, ← hthr, ← hv]

/-- One update of a static scene (no intents, motionless in-bounds
craft and tracked obstacle, no bullets) while still invincible: the
scene survives unchanged except for the counter decrement and possible
maintenance spawns. -/
theorem update_static_step (env : Env) (st : GameState) (a : Asteroid)
    (hg : st.gameOver = false) (hi : 1 < st.invincibleTime)
    (hk : st.keys = ⟨false, false, false, false⟩)
    (hthr : st.ship.thrust = false)
    (hv : st.ship.velocity = ⟨0, 0⟩)
    (hx0 : 0 ≤ st.ship.position.x) (hx1 : st.ship.position.x ≤ st.width)
    (hy0 : 0 ≤ st.ship.position.y)
    (hy1 : st.ship.position.y ≤ st.height)
    (hbul : st.bullets = [])
    (ha : a ∈ st.asteroids) (hav : a.velocity = ⟨0, 0⟩)
    (hrs : a.rotationSpeed = 0)
    (hax0 : 0 ≤ a.position.x) (hax1 : a.position.x ≤ st.width)
    (hay0 : 0 ≤ a.position.y) (hay1 : a.position.y ≤ st.height) :
    (update env st).gameOver = false ∧
    (update env st).invincibleTime = st.invincibleTime - 1 ∧
    (update env st).keys = st.keys ∧
    (update env st).width = st.width ∧
    (update env st).height = st.height ∧
    (update env st).ship = st.ship ∧
    (update env st).bullets = [] ∧
    a ∈ (update env st).asteroids := by
  rw [update_of_playing env st hg]
  have hinv1 : (updInvincible st).invincibleTime = st.invincibleTime - 1 := by
    unfold updInvincible
    rw [if_pos (by omega)]
  have hship2 : (updShip env (updInvincible st)).ship = st.ship := by
    have h := updShip_fix env (updInvincible st)
      (by rw [updInvincible_keys, hk]) (by rw [updInvincible_keys, hk])
      (by rw [updInvincible_keys, hk])
      (by rw [updInvincible_ship]; exact hthr)
      (by rw [updInvincible_ship]; exact hv)
      (by rw [updInvincible_ship]; exact hx0)
      (by rw [updInvincible_ship, updInvincible_width]; exact hx1)
      (by rw [updInvincible_ship]; exact hy0)
      (by rw [updInvincible_ship, updInvincible_height]; exact hy1)
    rw [h, updInvincible_ship]
  have hbul3 :
      (updBullets (updShip env (updInvincible st))).bullets = [] := by
    unfold updBullets
    simp [hbul]
  have hcoll : bulletCollisions env
      (updAsteroids (updBullets (updShip env (updInvincible st)))) =
      updAsteroids (updBullets (updShip env (updInvincible st))) := by
    unfold bulletCollisions
    rw [updAsteroids_bullets, hbul3]
    rfl
  rw [hcoll]
  set s4 := updAsteroids (updBullets (updShip env (updInvincible st)))
    with hs4
  have hinv4 : s4.invincibleTime = st.invincibleTime - 1 := by
    rw [hs4]
    simp only [updAsteroids_invincibleTime, updBullets_invincibleTime,
      updShip_invincibleTime, hinv1]
  have hskip : shipCollision s4 = s4 :=
    shipCollision_of_invincible s4 (by omega)
  rw [hskip]
  have hmem : a ∈ s4.asteroids := by
    rw [hs4]
    apply updAsteroids_mem_static
    · rw [updBullets_asteroids, updShip_asteroids, updInvincible_asteroids]
      exact ha
    · exact hav
    · exact hrs
    · exact hax0
    · rw [updBullets_width, updShip_width, updInvincible_width]
      exact hax1
    · exact hay0
    · rw [updBullets_height, updShip_height, updInvincible_height]
      exact hay1
  refine ⟨by simp [hs4, hg], by simp only [maintainAsteroids_invincibleTime]; exact hinv4,
    by simp [hs4], by simp [hs4], by simp [hs4],
    ?_, by simp only [maintainAsteroids_bullets]; rw [hs4, updAsteroids_bullets]; exact hbul3,
    maintainAsteroids_mem env s4 hmem⟩
  simp only [maintainAsteroids_ship, hs4, updAsteroids_ship,
    updBullets_ship]
  exact hship2

/-! ### Concrete inputs for counterexamples and witnesses -/

/-- A concrete environment: the random stream is constantly 0 (a legal
`Math.random()` value), `cosf` is constantly 1 and `sinf` constantly 0
(a legal point on the unit circle). -/
def zeroEnv : Env := ⟨fun _ => 0, fun _ => 1, fun _ => 0⟩

/-- A motionless craft at the center of a 1000 × 1000 field. -/
def c2Ship : Ship := ⟨⟨500, 500⟩, ⟨0, 0⟩, 0, false, []⟩

/-- A motionless size-60 obstacle sitting exactly on the craft. -/
def c2Ast : Asteroid := ⟨⟨500, 500⟩, ⟨0, 0⟩, 0, 0, 60, []⟩

/-- Fresh-reset state (invincibility 120) with the craft overlapping
the obstacle. -/
def c2CexSt : GameState :=
  ⟨1000, 1000, c2Ship, [c2Ast], [], [], 0,
    ⟨false, false, false, false⟩, false, 120, 0⟩

/-- C2 (amended): from a fresh reset the state cannot transition to
`GameOver` during the first 119 `update()` calls; but because the
counter is decremented before the craft-obstacle check, an overlapping
craft transitions already on the 120th call (any call entered with
counter ≤ 1), not from the 121st as claimed. -/
theorem invincibility_protects_119_frames :
    (∀ (env : Env) (st : GameState), st.gameOver = false →
      st.invincibleTime = 120 → ∀ k : ℕ, k ≤ 119 →
        ((update env)^[k] st).gameOver = false) ∧
    (∀ (env : Env) (st : GameState) (a : Asteroid),
      st.gameOver = false → st.invincibleTime ≤ 1 →
      st.keys.left = false → st.keys.right = false → st.keys.up = false →
      st.ship.velocity = ⟨0, 0⟩ →
      0 ≤ st.ship.position.x → st.ship.position.x ≤ st.width →
      0 ≤ st.ship.position.y → st.ship.position.y ≤ st.height →
      st.bullets = [] →
      a ∈ st.asteroids → a.velocity = ⟨0, 0⟩ → a.rotationSpeed = 0 →
      0 ≤ a.position.x → a.position.x ≤ st.width →
      0 ≤ a.position.y → a.position.y ≤ st.height →
      shipHits st.ship a →
      (update env st).gameOver = true) :=
  ⟨fun env st hg hiv k hk => (update_safe_iter env st hg hiv k hk).1,
   fun env st a hg hi hkl hkr hku hv hx0 hx1 hy0 hy1 hbul ha hav hrs
       hax0 hax1 hay0 hay1 hover =>
     update_kill env st a hg hi hkl hkr hku hv hx0 hx1 hy0 hy1 hbul
       ha hav hrs hax0 hax1 hay0 hay1 hover⟩

/-- C2 counterexample: from the fresh-reset overlapping scene, the
state is already `GameOver` after exactly 120 `update()` calls — the
claim's "no transition during the first 120 calls" is false. -/
theorem c2_counterexample :
    ((update zeroEnv)^[120] c2CexSt).gameOver = true := by
  have key : ∀ k : ℕ, k ≤ 119 →
      ((update zeroEnv)^[k] c2CexSt).gameOver = false ∧
      ((update zeroEnv)^[k] c2CexSt).invincibleTime = 120 - (k : ℤ) ∧
      ((update zeroEnv)^[k] c2CexSt).keys =
        ⟨false, false, false, false⟩ ∧
      ((update zeroEnv)^[k] c2CexSt).width = 1000 ∧
      ((update zeroEnv)^[k] c2CexSt).height = 1000 ∧
      ((update zeroEnv)^[k] c2CexSt).ship = c2Ship ∧
      ((update zeroEnv)^[k] c2CexSt).bullets = [] ∧
      c2Ast ∈ ((update zeroEnv)^[k] c2CexSt).asteroids := by
    intro k hk
    induction k with
    | zero =>
      refine ⟨rfl, by norm_num [c2CexSt], rfl, rfl, rfl, rfl, rfl, ?_⟩
      exact List.mem_singleton.2 rfl
    | succ n ih =>
      obtain ⟨ho, hiv, hky, hw, hh, hsh, hbu, hmem⟩ := ih (by omega)
      rw [Function.iterate_succ_apply']
      set s := (update zeroEnv)^[n] c2CexSt
      have step := update_static_step zeroEnv s c2Ast ho
        (by rw [hiv]; omega)
        hky
        (by rw [hsh]; rfl)
        (by rw [hsh]; rfl)
        (by rw [hsh]; norm_num [c2Ship])
        (by rw [hsh, hw]; norm_num [c2Ship])
        (by rw [hsh]; norm_num [c2Ship])
        (by rw [hsh, hh]; norm_num [c2Ship])
        hbu hmem rfl rfl
        (by norm_num [c2Ast])
        (by rw [hw]; norm_num [c2Ast])
        (by norm_num [c2Ast])
        (by rw [hh]; norm_num [c2Ast])
      obtain ⟨s1, s2, s3, s4, s5, s6, s7, s8⟩ := step
      refine ⟨s1, ?_, by rw [s3, hky], by rw [s4, hw], by rw [s5, hh],
        by rw [s6, hsh], s7, s8⟩
      rw [s2, hiv]
      push_cast
      ring
  obtain ⟨ho, hiv, hky, hw, hh, hsh, hbu, hmem⟩ := key 119 (by norm_num)
  rw [show (120 : ℕ) = 119 + 1 from rfl, Function.iterate_succ_apply']
  set s := (update zeroEnv)^[119] c2CexSt
  apply update_kill zeroEnv s c2Ast ho
    (by rw [hiv]; norm_num)
    (by rw [hky]) (by rw [hky]) (by rw [hky])
    (by rw [hsh]; rfl)
    (by rw [hsh]; norm_num [c2Ship])
    (by rw [hsh, hw]; norm_num [c2Ship])
    (by rw [hsh]; norm_num [c2Ship])
    (by rw [hsh, hh]; norm_num [c2Ship])
    hbu hmem rfl rfl
    (by norm_num [c2Ast])
    (by rw [hw]; norm_num [c2Ast])
    (by norm_num [c2Ast])
    (by rw [hh]; norm_num [c2Ast])
  rw [hsh]
  unfold shipHits
  norm_num [c2Ship, c2Ast, SHIP_SIZE]

/-! ### Fire-intent lemmas -/

/-- In `Playing`, `fireBullet` appends exactly one bullet and touches
neither `gameOver` nor the key map. -/
theorem fireBullet_playing (env : Env) (st : GameState)
    (hg : st.gameOver = false) :
    (fireBullet env st).bullets.length = st.bullets.length + 1 ∧
    (fireBullet env st).gameOver = false ∧
    (fireBullet env st).keys = st.keys := by
  unfold fireBullet
  rw [hg]
  simp

/-- A pressed edge (previous level released) in `Playing` spawns one
bullet and records the key as held. -/
theorem handleSpaceKey_press_edge (env : Env) (st : GameState)
    (hg : st.gameOver = false) (hf : st.keys.fire = false) :
    (handleSpaceKey env true st).bullets.length =
      st.bullets.length + 1 ∧
    (handleSpaceKey env true st).gameOver = false ∧
    (handleSpaceKey env true st).keys.fire = true := by
  unfold handleSpaceKey
  rw [hf]
  dsimp only
  exact ⟨(fireBullet_playing env st hg).1, (fireBullet_playing env st hg).2.1, rfl⟩

/-- A repeated press while the key is already held is a no-op apart
from re-recording the level. -/
theorem handleSpaceKey_held (env : Env) (st : GameState)
    (hf : st.keys.fire = true) :
    (handleSpaceKey env true st).bullets = st.bullets ∧
    (handleSpaceKey env true st).keys.fire = true := by
  unfold handleSpaceKey
  rw [hf]
  dsimp only
  exact ⟨rfl, rfl⟩

/-- C9: in `Playing`, N+1 consecutive pressed fire events without an
intervening release spawn exactly one projectile: only the
released-to-pressed transition fires. -/
theorem fire_edge_triggered (env : Env) (st : GameState) (N : ℕ)
    (hg : st.gameOver = false) (hf : st.keys.fire = false) :
    ((handleSpaceKey env true)^[N + 1] st).bullets.length =
      st.bullets.length + 1 := by
  have inv : ∀ (m : ℕ) (s : GameState), s.keys.fire = true →
      ((handleSpaceKey env true)^[m] s).bullets = s.bullets := by
    intro m
    induction m with
    | zero => intro s _; rfl
    | succ n ih =>
      intro s hsf
      rw [Function.iterate_succ_apply]
      have h := handleSpaceKey_held env s hsf
      rw [ih _ h.2, h.1]
  rw [Function.iterate_succ_apply]
  have h := handleSpaceKey_press_edge env st hg hf
  rw [inv N _ h.2.2, h.1]

/-! ### Split-law lemmas -/

/-- The random-stream position after `createAsteroidVertices`. -/
theorem createAsteroidVertices_snd (env : Env) (sz : ℚ) (k : ℕ) :
    (createAsteroidVertices env sz k).2 =
      k + 1 + (8 + ⌊env.rnd k * 5⌋).toNat := rfl

/-- The record built by `spawnAsteroid` when an explicit position is
supplied (split spawns): no edge randomness is consumed, the heading
angle is drawn first. -/
theorem mkAsteroid_some (env : Env) (w h sz : ℚ) (p : Vec2) (k : ℕ) :
    (mkAsteroid env w h sz (some p) k).1 =
      ⟨p, asteroidVelocity env sz k, 0, (env.rnd (k + 1) - 1/2) * (1/25),
        sz, (createAsteroidVertices env sz (k + 2)).1⟩ ∧
    (mkAsteroid env w h sz (some p) k).2 =
      (createAsteroidVertices env sz (k + 2)).2 :=
  ⟨rfl, rfl⟩

/-- Below the population cap, `spawnAsteroid` is exactly a push. -/
theorem spawnAsteroid_push (env : Env) (sz : ℚ) (p : Option Vec2)
    (st : GameState) (h : st.asteroids.length < 15) :
    spawnAsteroid env sz p st =
      { st with
        asteroids := st.asteroids ++
          [(mkAsteroid env st.width st.height sz p st.rndIdx).1]
        rndIdx := (mkAsteroid env st.width st.height sz p st.rndIdx).2 } := by
  unfold spawnAsteroid
  rw [if_neg (by simp only [MAX_ASTEROIDS, ge_iff_le, not_le]; omega)]

/-- C3 (amended): when a projectile destroys an obstacle of size
`s > 25` and the population before the hit is at most 14, exactly two
half-size children appear at the destroyed obstacle's position, with
headings drawn at two distinct positions of the random stream; at a
population of 15 the second (and possibly first) child spawn is
silently dropped (see `c3_counterexample`).  Destroying an obstacle of
size `s ≤ 25` never creates children. -/
theorem obstacle_split_law (env : Env) (i j : ℕ) (st : GameState)
    (a : Asteroid) (hja : st.asteroids.getD j default = a)
    (hj : j < st.asteroids.length) :
    (25 < a.size → st.asteroids.length ≤ 14 →
      ∃ c1 c2 : Asteroid, ∃ k1 k2 : ℕ,
        (processHit env i j st).asteroids =
          st.asteroids.eraseIdx j ++ [c1, c2] ∧
        c1.size = a.size * (1/2) ∧ c2.size = a.size * (1/2) ∧
        c1.position = a.position ∧ c2.position = a.position ∧
        c1.velocity = asteroidVelocity env (a.size * (1/2)) k1 ∧
        c2.velocity = asteroidVelocity env (a.size * (1/2)) k2 ∧
        k1 < k2) ∧
    (a.size ≤ 25 →
      (processHit env i j st).asteroids = st.asteroids.eraseIdx j) := by
  have hlen1 : (st.asteroids.eraseIdx j).length =
      st.asteroids.length - 1 := by
    rw [List.length_eraseIdx, if_pos hj]
  constructor
  · intro h25 hcap
    have e1 := spawnAsteroid_push env (a.size * (1/2)) (some a.position)
      { st with
        bullets := st.bullets.eraseIdx i
        asteroids := st.asteroids.eraseIdx j
        score := st.score + ⌊100 / a.size * 10⌋ } (by dsimp only; omega)
    unfold processHit
    rw [hja]
    dsimp only
    rw [if_pos h25, e1]
    dsimp only
    have h2 : (st.asteroids.eraseIdx j ++
        [(mkAsteroid env st.width st.height (a.size * (1/2))
          (some a.position) st.rndIdx).1]).length < 15 := by
      simp only [List.length_append, List.length_cons, List.length_nil]
      omega
    have e2 := spawnAsteroid_push env (a.size * (1/2)) (some a.position)
      { st with
        bullets := st.bullets.eraseIdx i
        asteroids := st.asteroids.eraseIdx j ++
          [(mkAsteroid env st.width st.height (a.size * (1/2))
            (some a.position) st.rndIdx).1]
        score := st.score + ⌊100 / a.size * 10⌋
        rndIdx := (mkAsteroid env st.width st.height (a.size * (1/2))
          (some a.position) st.rndIdx).2 } (by dsimp only; exact h2)
    rw [e2]
    dsimp only
    refine ⟨(mkAsteroid env st.width st.height (a.size * (1/2))
        (some a.position) st.rndIdx).1,
      (mkAsteroid env st.width st.height (a.size * (1/2)) (some a.position)
        ((mkAsteroid env st.width st.height (a.size * (1/2))
          (some a.position) st.rndIdx).2)).1,
      st.rndIdx,
      (mkAsteroid env st.width st.height (a.size * (1/2))
        (some a.position) st.rndIdx).2,
      ?_, ?_, ?_, ?_, ?_, ?_, ?_, ?_⟩
    · rw [List.append_assoc]
      rfl
    · rw [(mkAsteroid_some env st.width st.height (a.size * (1/2))
        a.position st.rndIdx).1]
    · rw [(mkAsteroid_some env st.width st.height (a.size * (1/2))
        a.position _).1]
    · rw [(mkAsteroid_some env st.width st.height (a.size * (1/2))
        a.position st.rndIdx).1]
    · rw [(mkAsteroid_some env st.width st.height (a.size * (1/2))
        a.position _).1]
    · rw [(mkAsteroid_some env st.width st.height (a.size * (1/2))
        a.position st.rndIdx).1]
    · rw [(mkAsteroid_some env st.width st.height (a.size * (1/2))
        a.position _).1]
    · rw [(mkAsteroid_some env st.width st.height (a.size * (1/2))
        a.position st.rndIdx).2, createAsteroidVertices_snd]
      omega
  · intro h25
    unfold processHit
    rw [hja]
    dsimp only
    rw [if_neg (not_lt.2 h25)]

/-! ### Collision-pass order lemmas -/

/-- One unfolding step of the inner scan. -/
theorem innerLoop_succ (env : Env) (i j : ℕ) (st : GameState) :
    innerLoop env i (j + 1) st =
      if bulletHits (st.bullets.getD i default)
           (st.asteroids.getD j default)
      then processHit env i j st
      else innerLoop env i j st := rfl

/-- Scanning down from above, indices with no hit are skipped. -/
theorem innerLoop_skip (env : Env) (i : ℕ) (st : GameState) (J m : ℕ)
    (h : ∀ t : ℕ, J < t → t < J + 1 + m →
      ¬ bulletHits (st.bullets.getD i default)
        (st.asteroids.getD t default)) :
    innerLoop env i (J + 1 + m) st = innerLoop env i (J + 1) st := by
  induction m with
  | zero => rfl
  | succ n ih =>
    have hstep : innerLoop env i (J + 1 + (n + 1)) st =
        innerLoop env i (J + 1 + n) st := by
      rw [show J + 1 + (n + 1) = (J + 1 + n) + 1 from rfl, innerLoop_succ,
        if_neg (h (J + 1 + n) (by omega) (by omega))]
    rw [hstep, ih (fun t ht1 ht2 => h t ht1 (by omega))]

/-- The first (highest-index) hit triggers `processHit` and breaks. -/
theorem innerLoop_hit (env : Env) (i : ℕ) (st : GameState) (J : ℕ)
    (hhit : bulletHits (st.bullets.getD i default)
      (st.asteroids.getD J default)) :
    innerLoop env i (J + 1) st = processHit env i J st := by
  rw [innerLoop_succ, if_pos hhit]

/-- With no hit anywhere below the scan start, the inner loop is the
identity: the projectile survives the frame. -/
theorem innerLoop_no_hit (env : Env) (i : ℕ) (f : ℕ) (st : GameState)
    (h : ∀ t : ℕ, t < f →
      ¬ bulletHits (st.bullets.getD i default)
        (st.asteroids.getD t default)) :
    innerLoop env i f st = st := by
  induction f with
  | zero => rfl
  | succ n ih =>
    rw [innerLoop_succ, if_neg (h n (by omega))]
    exact ih (fun t ht => h t (by omega))

/-- C6 (amended): in the collision pass a projectile is removed on the
first obstacle it hits and hits at most one obstacle per frame; but
the obstacles are scanned in REVERSE list-index order, so the
newest-inserted (highest-index) overlapping obstacle is hit, not the
lowest-index one (see `c6_counterexample`); with no overlap the
projectile survives unchanged. -/
theorem projectile_hits_newest_first (env : Env) (i : ℕ)
    (st : GameState) (J : ℕ) (hJ : J < st.asteroids.length)
    (hhit : bulletHits (st.bullets.getD i default)
      (st.asteroids.getD J default))
    (hnone : ∀ t : ℕ, J < t → t < st.asteroids.length →
      ¬ bulletHits (st.bullets.getD i default)
        (st.asteroids.getD t default)) :
    (innerLoop env i st.asteroids.length st = processHit env i J st ∧
      (processHit env i J st).bullets = st.bullets.eraseIdx i) ∧
    ∀ (st' : GameState) (i' : ℕ),
      (∀ t : ℕ, t < st'.asteroids.length →
        ¬ bulletHits (st'.bullets.getD i' default)
          (st'.asteroids.getD t default)) →
      innerLoop env i' st'.asteroids.length st' = st' := by
  refine ⟨⟨?_, processHit_bullets env i J st⟩,
    fun st' i' h' => innerLoop_no_hit env i' _ st' h'⟩
  have hsplit : st.asteroids.length =
      J + 1 + (st.asteroids.length - J - 1) := by omega
  rw [hsplit, innerLoop_skip env i st J _
    (fun t ht1 ht2 => hnone t ht1 (by omega)),
    innerLoop_hit env i st J hhit]

/-! ### Outline-generation lemmas -/

/-- Vertex-count bounds of `createAsteroidVertices` under a legal
random stream. -/
theorem createAsteroidVertices_length (env : Env) (sz : ℚ) (k : ℕ)
    (hr : ∀ n : ℕ, 0 ≤ env.rnd n ∧ env.rnd n < 1) :
    8 ≤ (createAsteroidVertices env sz k).1.length ∧
      (createAsteroidVertices env sz k).1.length ≤ 12 := by
  unfold createAsteroidVertices
  dsimp only
  rw [List.length_map, List.length_range]
  obtain ⟨h0, h1⟩ := hr k
  have hf0 : (0 : ℤ) ≤ ⌊env.rnd k * 5⌋ := Int.floor_nonneg.2 (by positivity)
  have hf1 : ⌊env.rnd k * 5⌋ < 5 := Int.floor_lt.2 (by push_cast; nlinarith)
  omega

/-- Radius bounds of the generated outline: every vertex sits at
squared radius between `(0.6 size)²` and `(1.4 size)²` (in fact below
`(1.0 size)²`, since the source perturbs only downward). -/
theorem createAsteroidVertices_radius (env : Env) (sz : ℚ) (k : ℕ)
    (hr : ∀ n : ℕ, 0 ≤ env.rnd n ∧ env.rnd n < 1)
    (htrig : ∀ q : ℚ, env.cosf q ^ 2 + env.sinf q ^ 2 = 1)
    (hsz : 0 ≤ sz) :
    ∀ v ∈ (createAsteroidVertices env sz k).1,
      (3/5 * sz) ^ 2 ≤ v.x ^ 2 + v.y ^ 2 ∧
      v.x ^ 2 + v.y ^ 2 ≤ (7/5 * sz) ^ 2 := by
  intro v hv
  unfold createAsteroidVertices at hv
  dsimp only at hv
  rw [List.mem_map] at hv
  obtain ⟨i, hi, hvi⟩ := hv
  obtain ⟨hr0, hr1⟩ := hr (k + 1 + i)
  have hxy : v.x ^ 2 + v.y ^ 2 =
      (sz * (3/5 + env.rnd (k + 1 + i) * (2/5))) ^ 2 := by
    rw [← hvi]
    dsimp only
    have ht := htrig (((i : ℚ) /
      ((8 + ⌊env.rnd k * 5⌋).toNat : ℚ)) * mathPI * 2)
    nlinarith [ht]
  rw [hxy]
  constructor
  · have hle : 3/5 * sz ≤ sz * (3/5 + env.rnd (k + 1 + i) * (2/5)) := by
      nlinarith
    exact pow_le_pow_left₀ (by positivity) hle 2
  · have hle : sz * (3/5 + env.rnd (k + 1 + i) * (2/5)) ≤ 7/5 * sz := by
      nlinarith
    exact pow_le_pow_left₀ (by positivity) hle 2

/-- Whatever placement branch is taken, the record built by
`mkAsteroid` carries an outline produced by `createAsteroidVertices`
at some stream position. -/
theorem mkAsteroid_vertices (env : Env) (w h sz : ℚ) (p : Option Vec2)
    (k : ℕ) : ∃ k', (mkAsteroid env w h sz p k).1.vertices =
      (createAsteroidVertices env sz k').1 := by
  cases p with
  | some q => exact ⟨k + 2, rfl⟩
  | none =>
    unfold mkAsteroid
    dsimp only
    split_ifs <;> exact ⟨k + 4, rfl⟩

/-- Obstacles surviving a spawn attempt either predate it or carry a
freshly generated outline. -/
theorem spawnAsteroid_vertices (env : Env) (sz : ℚ) (p : Option Vec2)
    (st : GameState) {a' : Asteroid}
    (ha' : a' ∈ (spawnAsteroid env sz p st).asteroids) :
    a' ∈ st.asteroids ∨
      ∃ k, a'.vertices = (createAsteroidVertices env sz k).1 := by
  unfold spawnAsteroid at ha'
  split at ha'
  · exact Or.inl ha'
  · rcases List.mem_append.1 ha' with h | h
    · exact Or.inl h
    · right
      rw [List.mem_singleton] at h
      subst h
      exact mkAsteroid_vertices env st.width st.height sz p st.rndIdx

/-- Obstacles surviving a hit either predate it or are fresh
children. -/
theorem processHit_vertices (env : Env) (i j : ℕ) (st : GameState)
    {a' : Asteroid} (ha' : a' ∈ (processHit env i j st).asteroids) :
    a' ∈ st.asteroids ∨
      ∃ sz k, a'.vertices = (createAsteroidVertices env sz k).1 := by
  unfold processHit at ha'
  dsimp only at ha'
  split at ha'
  · rcases spawnAsteroid_vertices _ _ _ _ ha' with h | h
    · rcases spawnAsteroid_vertices _ _ _ _ h with h2 | h2
      · exact Or.inl ((List.eraseIdx_sublist st.asteroids j).mem h2)
      · exact Or.inr ⟨_, h2⟩
    · exact Or.inr ⟨_, h⟩
  · exact Or.inl ((List.eraseIdx_sublist st.asteroids j).mem ha')

theorem innerLoop_vertices (env : Env) (i f : ℕ) (st : GameState)
    {a' : Asteroid} (h : a' ∈ (innerLoop env i f st).asteroids) :
    a' ∈ st.asteroids ∨
      ∃ sz k, a'.vertices = (createAsteroidVertices env sz k).1 := by
  induction f generalizing st with
  | zero => exact Or.inl h
  | succ g ih =>
    rw [innerLoop_succ] at h
    split at h
    · exact processHit_vertices env i g st h
    · exact ih _ h

theorem outerLoop_vertices (env : Env) (f : ℕ) (st : GameState)
    {a' : Asteroid} (h : a' ∈ (outerLoop env f st).asteroids) :
    a' ∈ st.asteroids ∨
      ∃ sz k, a'.vertices = (createAsteroidVertices env sz k).1 := by
  induction f generalizing st with
  | zero => exact Or.inl h
  | succ g ih =>
    unfold outerLoop at h
    rcases ih _ h with h1 | h1
    · exact innerLoop_vertices env g _ st h1
    · exact Or.inr h1

theorem updAsteroids_vertices (st : GameState) {a' : Asteroid}
    (ha' : a' ∈ (updAsteroids st).asteroids) :
    ∃ a ∈ st.asteroids, a'.vertices = a.vertices := by
  unfold updAsteroids at ha'
  dsimp only at ha'
  rw [List.mem_map] at ha'
  obtain ⟨a, ha, rfl⟩ := ha'
  exact ⟨a, ha, rfl⟩

theorem maintainAsteroids_vertices (env : Env) (st : GameState)
    {a' : Asteroid} (h : a' ∈ (maintainAsteroids env st).asteroids) :
    a' ∈ st.asteroids ∨
      ∃ sz k, a'.vertices = (createAsteroidVertices env sz k).1 := by
  unfold maintainAsteroids at h
  dsimp only at h
  split at h
  · rcases spawnAsteroid_vertices _ _ _ _ h with h1 | h1
    · exact Or.inl h1
    · exact Or.inr ⟨_, h1⟩
  · exact Or.inl h

/-- Across a whole `update()`, every obstacle's outline is either
inherited unchanged from an obstacle of the previous frame or was
freshly generated by `createAsteroidVertices` — outlines are never
mutated in place. -/
theorem update_vertices (env : Env) (st : GameState) {a' : Asteroid}
    (h : a' ∈ (update env st).asteroids) :
    (∃ a ∈ st.asteroids, a'.vertices = a.vertices) ∨
      ∃ sz k, a'.vertices = (createAsteroidVertices env sz k).1 := by
  unfold update at h
  split at h
  · exact Or.inl ⟨a', h, rfl⟩
  · rcases maintainAsteroids_vertices _ _ h with h1 | h1
    · rw [shipCollision_asteroids] at h1
      unfold bulletCollisions at h1
      rcases outerLoop_vertices _ _ _ h1 with h2 | h2
      · obtain ⟨a, ha, hveq⟩ := updAsteroids_vertices _ h2
        refine Or.inl ⟨a, ?_, hveq⟩
        rwa [updBullets_asteroids, updShip_asteroids,
          updInvincible_asteroids] at ha
      · exact Or.inr h2
    · exact Or.inr h1

/-- C8: every generated obstacle outline has between 8 and 12
vertices, each vertex at squared radius between `(0.6 size)²` and
`(1.4 size)²` of the obstacle's size, and outlines are fixed for an
obstacle's lifetime: an update never rewrites an outline, it only
inherits it or generates a fresh one for a fresh obstacle. -/
theorem obstacle_outline_law (env : Env) (sz : ℚ) (k : ℕ)
    (hr : ∀ n : ℕ, 0 ≤ env.rnd n ∧ env.rnd n < 1)
    (htrig : ∀ q : ℚ, env.cosf q ^ 2 + env.sinf q ^ 2 = 1)
    (hsz : 0 ≤ sz) :
    (8 ≤ (createAsteroidVertices env sz k).1.length ∧
      (createAsteroidVertices env sz k).1.length ≤ 12) ∧
    (∀ v ∈ (createAsteroidVertices env sz k).1,
      (3/5 * sz) ^ 2 ≤ v.x ^ 2 + v.y ^ 2 ∧
      v.x ^ 2 + v.y ^ 2 ≤ (7/5 * sz) ^ 2) ∧
    (∀ (st : GameState), ∀ a' ∈ (update env st).asteroids,
      (∃ a ∈ st.asteroids, a'.vertices = a.vertices) ∨
      ∃ sz' k', a'.vertices = (createAsteroidVertices env sz' k').1) :=
  ⟨createAsteroidVertices_length env sz k hr,
   createAsteroidVertices_radius env sz k hr htrig hsz,
   fun st _ h => update_vertices env st h⟩

/-! ### Geometry-snapshot lemmas -/

/-- Channel bounds: `r`, `g`, `a` within `[0,1]`, `b` within
`[0, 1.2]` (the star pass scales blue by 1.2). -/
def colorOk (v : Vertex) : Prop :=
  0 ≤ v.r ∧ v.r ≤ 1 ∧ 0 ≤ v.g ∧ v.g ≤ 1 ∧ 0 ≤ v.b ∧ v.b ≤ 6/5 ∧
  0 ≤ v.a ∧ v.a ≤ 1

instance : DecidablePred colorOk := fun v => by
  unfold colorOk; infer_instance

theorem length_flatMap_even {α β : Type} (l : List α) (f : α → List β)
    (h : ∀ a, (f a).length % 2 = 0) :
    (l.flatMap f).length % 2 = 0 := by
  induction l with
  | nil => rfl
  | cons x xs ih =>
    rw [List.flatMap_cons, List.length_append]
    have := h x
    omega

theorem drawText_length_even (text : List Char) (x y : ℚ) (c : Color) :
    (drawText text x y c).length % 2 = 0 := by
  unfold drawText
  refine length_flatMap_even _ _ (fun i => ?_)
  refine length_flatMap_even _ _ (fun seg => ?_)
  simp

theorem outlineVerts_length_even (pts : List Vec2) (c : Color) :
    (outlineVerts pts c).length % 2 = 0 := by
  unfold outlineVerts
  exact length_flatMap_even _ _ (fun i => by simp)

theorem drawText_colors (text : List Char) (x y : ℚ) (c : Color) :
    ∀ v ∈ drawText text x y c,
      v.r = c.r ∧ v.g = c.g ∧ v.b = c.b ∧ v.a = c.a := by
  intro v hv
  unfold drawText at hv
  rw [List.mem_flatMap] at hv
  obtain ⟨i, _, hv⟩ := hv
  rw [List.mem_flatMap] at hv
  obtain ⟨seg, _, hv⟩ := hv
  simp only [List.mem_cons, List.not_mem_nil, or_false] at hv
  rcases hv with rfl | rfl <;> exact ⟨rfl, rfl, rfl, rfl⟩

theorem outlineVerts_colors (pts : List Vec2) (c : Color) :
    ∀ v ∈ outlineVerts pts c,
      v.r = c.r ∧ v.g = c.g ∧ v.b = c.b ∧ v.a = c.a := by
  intro v hv
  unfold outlineVerts at hv
  rw [List.mem_flatMap] at hv
  obtain ⟨i, _, hv⟩ := hv
  simp only [List.mem_cons, List.not_mem_nil, or_false] at hv
  rcases hv with rfl | rfl <;> exact ⟨rfl, rfl, rfl, rfl⟩

theorem starSection_colors (env : Env) (stars : List Star) (t : ℚ)
    (hb : ∀ s ∈ stars, 0 ≤ s.brightness ∧ s.brightness ≤ 1)
    (hsin : ∀ q : ℚ, -1 ≤ env.sinf q ∧ env.sinf q ≤ 1) :
    ∀ v ∈ starSection env stars t, colorOk v := by
  intro v hv
  unfold starSection at hv
  rw [List.mem_flatMap] at hv
  obtain ⟨s, hs, hv⟩ := hv
  obtain ⟨hb0, hb1⟩ := hb s hs
  obtain ⟨hs0, hs1⟩ := hsin (t * s.twinkleSpeed + s.twinkleOffset)
  set w := env.sinf (t * s.twinkleSpeed + s.twinkleOffset) with hw
  dsimp only at hv
  have ht0 : 0 ≤ 1/2 + 1/2 * w := by linarith
  have ht1 : 1/2 + 1/2 * w ≤ 1 := by linarith
  have hbr0 : 0 ≤ s.brightness * (1/2 + 1/2 * w) := mul_nonneg hb0 ht0
  have hbr1 : s.brightness * (1/2 + 1/2 * w) ≤ 1 := by nlinarith
  simp only [List.mem_cons, List.not_mem_nil, or_false] at hv
  unfold colorOk
  rcases hv with rfl | rfl <;>
    simp only [mkVertex] <;>
    exact ⟨hbr0, hbr1, hbr0, hbr1, by linarith, by linarith,
      by norm_num, by norm_num⟩

theorem shipColor_bounds (st : GameState) (t : ℚ) :
    (0 ≤ (shipColor st t).r ∧ (shipColor st t).r ≤ 1) ∧
    (0 ≤ (shipColor st t).g ∧ (shipColor st t).g ≤ 1) ∧
    (0 ≤ (shipColor st t).b ∧ (shipColor st t).b ≤ 1) ∧
    (0 ≤ (shipColor st t).a ∧ (shipColor st t).a ≤ 1) := by
  unfold shipColor
  split <;> norm_num

theorem flameSection_colors (env : Env) (st : GameState) :
    ∀ v ∈ flameSection env st, colorOk v := by
  intro v hv
  unfold flameSection at hv
  split at hv
  · simp only [List.mem_cons, List.not_mem_nil, or_false] at hv
    unfold colorOk
    rcases hv with rfl | rfl <;> norm_num [mkVertex]
  · exact absurd hv (List.not_mem_nil v)

theorem bulletSection_colors (st : GameState) :
    ∀ v ∈ bulletSection st, colorOk v := by
  intro v hv
  unfold bulletSection at hv
  rw [List.mem_flatMap] at hv
  obtain ⟨b, _, hv⟩ := hv
  simp only [List.mem_cons, List.not_mem_nil, or_false] at hv
  unfold colorOk
  rcases hv with rfl | rfl | rfl | rfl <;> norm_num [mkVertex]

theorem asteroidSection_colors (env : Env) (st : GameState) :
    ∀ v ∈ asteroidSection env st, colorOk v := by
  intro v hv
  unfold asteroidSection at hv
  rw [List.mem_flatMap] at hv
  obtain ⟨a, _, hv⟩ := hv
  obtain ⟨h1, h2, h3, h4⟩ := outlineVerts_colors _ _ v hv
  unfold colorOk
  rw [h1, h2, h3, h4]
  norm_num

/-- C7 (amended): the geometry snapshot always has even length
(vertices are emitted strictly in pairs), and under the physical
bounds on the star data and the sine source every vertex's `r`, `g`,
`a` channels lie in `[0,1]` while the `b` channel lies in `[0, 1.2]` —
the star pass multiplies blue by 1.2, so `b` can exceed 1 (see
`c7_counterexample`). -/
theorem geometry_even_and_colors (env : Env) (st : GameState) (t : ℚ)
    (hb : ∀ s ∈ st.stars, 0 ≤ s.brightness ∧ s.brightness ≤ 1)
    (hsin : ∀ q : ℚ, -1 ≤ env.sinf q ∧ env.sinf q ≤ 1) :
    (getVertices env st t).length % 2 = 0 ∧
    ∀ v ∈ getVertices env st t, colorOk v := by
  constructor
  · unfold getVertices
    simp only [List.length_append]
    have e1 : (starSection env st.stars t).length % 2 = 0 := by
      unfold starSection
      exact length_flatMap_even _ _ (fun s => by simp)
    have e2 : ((if st.gameOver then [] else
        outlineVerts (st.ship.vertices.map
          (rotatePoint env st.ship.position st.ship.rotation))
          (shipColor st t) ++ flameSection env st) : List Vertex).length
          % 2 = 0 := by
      split
      · rfl
      · rw [List.length_append]
        have f1 := outlineVerts_length_even (st.ship.vertices.map
          (rotatePoint env st.ship.position st.ship.rotation))
          (shipColor st t)
        have f2 : (flameSection env st).length % 2 = 0 := by
          unfold flameSection
          split <;> simp
        omega
    have e3 : (asteroidSection env st).length % 2 = 0 := by
      unfold asteroidSection
      exact length_flatMap_even _ _
        (fun a => outlineVerts_length_even _ _)
    have e4 : (bulletSection st).length % 2 = 0 := by
      unfold bulletSection
      exact length_flatMap_even _ _ (fun b => by simp)
    have e5 := drawText_length_even
      ("SCORE: " ++ toString st.score).toList 20 30 ⟨1, 1, 1, 1⟩
    have e6 : ((if st.gameOver then
        drawText "GAME OVER".toList (st.width / 2 - 80) (st.height / 2)
          ⟨1, 0, 0, 1⟩ ++
          drawText "PRESS FIRE TO RESTART".toList (st.width / 2 - 150)
            (st.height / 2 + 30) ⟨1, 1, 0, 1⟩
        else []) : List Vertex).length % 2 = 0 := by
      split
      · rw [List.length_append]
        have g1 := drawText_length_even "GAME OVER".toList
          (st.width / 2 - 80) (st.height / 2) ⟨1, 0, 0, 1⟩
        have g2 := drawText_length_even "PRESS FIRE TO RESTART".toList
          (st.width / 2 - 150) (st.height / 2 + 30) ⟨1, 1, 0, 1⟩
        omega
      · rfl
    omega
  · intro v hv
    unfold getVertices at hv
    simp only [List.mem_append] at hv
    rcases hv with ((((hv | hv) | hv) | hv) | hv) | hv
    · exact starSection_colors env st.stars t hb hsin v hv
    · split at hv
      · exact absurd hv (List.not_mem_nil v)
      · rcases List.mem_append.1 hv with hv | hv
        · obtain ⟨h1, h2, h3, h4⟩ := outlineVerts_colors _ _ v hv
          obtain ⟨c1, c2, c3, c4⟩ := shipColor_bounds st t
          unfold colorOk
          rw [h1, h2, h3, h4]
          refine ⟨c1.1, c1.2, c2.1, c2.2, c3.1, le_trans c3.2 (by norm_num),
            c4.1, c4.2⟩
        · exact flameSection_colors env st v hv
    · exact asteroidSection_colors env st v hv
    · exact bulletSection_colors st v hv
    · obtain ⟨h1, h2, h3, h4⟩ := drawText_colors _ _ _ _ v hv
      unfold colorOk
      rw [h1, h2, h3, h4]
      norm_num
    · split at hv
      · rcases List.mem_append.1 hv with hv | hv <;>
          · obtain ⟨h1, h2, h3, h4⟩ := drawText_colors _ _ _ _ v hv
            unfold colorOk
            rw [h1, h2, h3, h4]
            norm_num
      · exact absurd hv (List.not_mem_nil v)

/-! ### Concrete scenes -/

/-- No intent held. -/
def keysNone : Keys := ⟨false, false, false, false⟩

/-- A craft flying left fast enough to cross the left edge this
frame. -/
def c1CexSt : GameState :=
  ⟨100, 100, ⟨⟨50, 50⟩, ⟨-60, 0⟩, 0, false, []⟩,
    [⟨⟨90, 90⟩, ⟨0, 0⟩, 0, 0, 1, []⟩, ⟨⟨90, 90⟩, ⟨0, 0⟩, 0, 0, 1, []⟩,
     ⟨⟨90, 90⟩, ⟨0, 0⟩, 0, 0, 1, []⟩],
    [], [], 0, keysNone, false, 5, 0⟩

/-- A `Playing` state with no obstacles at all. -/
def c5CexSt : GameState :=
  ⟨100, 100, ⟨⟨50, 50⟩, ⟨0, 0⟩, 0, false, []⟩, [], [], [], 0,
    keysNone, false, 5, 0⟩

/-- A size-60 obstacle sitting on the projectile of `c3CexSt`. -/
def c3Ast60 : Asteroid := ⟨⟨50, 50⟩, ⟨0, 0⟩, 0, 0, 60, []⟩

/-- Population at the cap of 15 (one size-60 target plus 14 far-away
fillers), one projectile inside the target. -/
def c3CexSt : GameState :=
  ⟨1000, 1000, ⟨⟨900, 900⟩, ⟨0, 0⟩, 0, false, []⟩,
    c3Ast60 :: List.replicate 14 ⟨⟨500, 500⟩, ⟨0, 0⟩, 0, 0, 12, []⟩,
    [⟨⟨50, 50⟩, ⟨0, 0⟩, 10⟩], [], 0, keysNone, false, 5, 0⟩

/-- A single size-60 obstacle, population well below the cap. -/
def c3WitSt : GameState :=
  ⟨1000, 1000, ⟨⟨900, 900⟩, ⟨0, 0⟩, 0, false, []⟩, [c3Ast60],
    [⟨⟨50, 50⟩, ⟨0, 0⟩, 10⟩], [], 0, keysNone, false, 5, 0⟩

/-- Two overlapping obstacles (sizes 10 and 12, both containing the
projectile); index 0 is the older one. -/
def c6CexSt : GameState :=
  ⟨1000, 1000, ⟨⟨900, 900⟩, ⟨0, 0⟩, 0, false, []⟩,
    [⟨⟨50, 50⟩, ⟨0, 0⟩, 0, 0, 10, []⟩,
     ⟨⟨50, 50⟩, ⟨0, 0⟩, 0, 0, 12, []⟩],
    [⟨⟨50, 50⟩, ⟨0, 0⟩, 10⟩], [], 0, keysNone, false, 5, 0⟩

/-- An environment whose sine source returns 1 (attained by
`Math.sin` at `Math.PI/2`). -/
def env7 : Env := ⟨fun _ => 0, fun _ => 1, fun _ => 1⟩

/-- One bright star (brightness 0.9, in the generated range
`[0.3, 1)`). -/
def c7CexSt : GameState :=
  ⟨100, 100, ⟨⟨50, 50⟩, ⟨0, 0⟩, 0, false, []⟩, [], [],
    [⟨5, 5, 9/10, 1, 0⟩], 0, keysNone, false, 0, 0⟩

/-- Starless scene used to instantiate the color theorem. -/
def c7WitSt : GameState :=
  ⟨100, 100, ⟨⟨50, 50⟩, ⟨0, 0⟩, 0, false, []⟩, [], [], [], 0,
    keysNone, false, 0, 0⟩

/-- The overlap scene with the invincibility counter already down to
1. -/
def c2KillSt : GameState :=
  ⟨1000, 1000, c2Ship, [c2Ast], [], [], 0, keysNone, false, 1, 0⟩

/-! ### Counterexamples -/

set_option maxRecDepth 400000 in
/-- C1 counterexample: the craft crosses the left edge, `wrapPosition`
maps it to `x = width` itself, so after `update()` the half-open bound
`x < width` fails. -/
theorem c1_counterexample :
    (update zeroEnv c1CexSt).ship.position.x = 100 ∧
    ¬ ((update zeroEnv c1CexSt).ship.position.x < c1CexSt.width) := by
  with_unfolding_all decide

set_option maxRecDepth 400000 in
/-- C3 counterexample: at a population of 15, destroying the size-60
obstacle yields exactly ONE size-30 child, not two — the second child
spawn is silently dropped by the population cap. -/
theorem c3_counterexample :
    (update zeroEnv c3CexSt).asteroids.countP
      (fun a => a.size == 30) = 1 ∧
    ¬ ((update zeroEnv c3CexSt).asteroids.countP
      (fun a => a.size == 30) = 2) := by
  with_unfolding_all decide

set_option maxRecDepth 400000 in
/-- C5 counterexample: with 0 obstacles before `update()`, exactly one
is spawned, so the count after is 1, not ≥ 3. -/
theorem c5_counterexample :
    (update zeroEnv c5CexSt).asteroids.length = 1 ∧
    ¬ (3 ≤ (update zeroEnv c5CexSt).asteroids.length) := by
  with_unfolding_all decide

set_option maxRecDepth 400000 in
/-- C6 counterexample: with two overlapping obstacles the projectile
destroys the NEWEST-inserted one (index 1, size 12) — the sizes left
after `update()` are `[10, 50]` (the 50 is the maintenance spawn) —
whereas index order would have destroyed the size-10 one. -/
theorem c6_counterexample :
    (update zeroEnv c6CexSt).asteroids.map (fun a => a.size) =
      [10, 50] ∧
    (12 : ℚ) ∉ (update zeroEnv c6CexSt).asteroids.map
      (fun a => a.size) := by
  with_unfolding_all decide

set_option maxRecDepth 400000 in
/-- C7 counterexample: a legal state holds a vertex whose blue channel
is `27/25 > 1` (star blue = brightness × twinkle × 1.2). -/
theorem c7_counterexample :
    ∃ v ∈ getVertices env7 c7CexSt 0, 1 < v.b := by
  with_unfolding_all decide

/-! ### Witnesses -/

/-- Witness for C1's theorem at a concrete scene. -/
theorem c1_witness :
    (0 ≤ (update zeroEnv c1CexSt).ship.position.x ∧
      (update zeroEnv c1CexSt).ship.position.x ≤ c1CexSt.width ∧
      0 ≤ (update zeroEnv c1CexSt).ship.position.y ∧
      (update zeroEnv c1CexSt).ship.position.y ≤ c1CexSt.height) ∧
    ∀ b ∈ (update zeroEnv c1CexSt).bullets,
      0 ≤ b.position.x ∧ b.position.x ≤ c1CexSt.width ∧
      0 ≤ b.position.y ∧ b.position.y ≤ c1CexSt.height :=
  update_positions_in_closed_box zeroEnv c1CexSt
    (by norm_num [c1CexSt]) (by norm_num [c1CexSt]) rfl

/-- Witness for C2's theorem at concrete scenes: safety for 119 frames
from the fresh reset, and the kill on a frame entered with counter
1. -/
theorem c2_witness :
    ((update zeroEnv)^[119] c2CexSt).gameOver = false ∧
    (update zeroEnv c2KillSt).gameOver = true :=
  ⟨invincibility_protects_119_frames.1 zeroEnv c2CexSt rfl rfl 119
      (by norm_num),
   invincibility_protects_119_frames.2 zeroEnv c2KillSt c2Ast rfl
     (by norm_num [c2KillSt]) rfl rfl rfl rfl
     (by norm_num [c2KillSt, c2Ship])
     (by norm_num [c2KillSt, c2Ship])
     (by norm_num [c2KillSt, c2Ship])
     (by norm_num [c2KillSt, c2Ship])
     rfl (List.mem_singleton.2 rfl) rfl rfl
     (by norm_num [c2Ast])
     (by norm_num [c2KillSt, c2Ast])
     (by norm_num [c2Ast])
     (by norm_num [c2KillSt, c2Ast])
     (by norm_num [shipHits, c2KillSt, c2Ship, c2Ast, SHIP_SIZE])⟩

/-- Witness for C3's theorem: a clean double split at population 1,
and a no-child destruction of a size-12 obstacle. -/
theorem c3_witness :
    (∃ c1 c2 : Asteroid, ∃ k1 k2 : ℕ,
      (processHit zeroEnv 0 0 c3WitSt).asteroids =
        c3WitSt.asteroids.eraseIdx 0 ++ [c1, c2] ∧
      c1.size = c3Ast60.size * (1/2) ∧ c2.size = c3Ast60.size * (1/2) ∧
      c1.position = c3Ast60.position ∧ c2.position = c3Ast60.position ∧
      c1.velocity = asteroidVelocity zeroEnv (c3Ast60.size * (1/2)) k1 ∧
      c2.velocity = asteroidVelocity zeroEnv (c3Ast60.size * (1/2)) k2 ∧
      k1 < k2) ∧
    (processHit zeroEnv 0 0 c6CexSt).asteroids =
      c6CexSt.asteroids.eraseIdx 0 :=
  ⟨(obstacle_split_law zeroEnv 0 0 c3WitSt c3Ast60 rfl
      (by norm_num [c3WitSt])).1
      (by norm_num [c3Ast60]) (by norm_num [c3WitSt]),
   (obstacle_split_law zeroEnv 0 0 c6CexSt
      ⟨⟨50, 50⟩, ⟨0, 0⟩, 0, 0, 10, []⟩ rfl (by norm_num [c6CexSt])).2
      (by norm_num)⟩

/-- Witness for C4's theorem: the bound across one update of a 3-
obstacle scene, and the silent no-op of a spawn attempt at 15. -/
theorem c4_witness :
    (update zeroEnv c1CexSt).asteroids.length ≤ 15 ∧
    spawnAsteroid zeroEnv 50 none c3CexSt = c3CexSt :=
  ⟨(obstacle_population_bounded zeroEnv c1CexSt).1 (by norm_num [c1CexSt]),
   (obstacle_population_bounded zeroEnv c3CexSt).2
     (by norm_num [c3CexSt]) 50 none⟩

/-- Witness for C5's theorem. -/
theorem c5_witness :
    (update zeroEnv c5CexSt).asteroids.length =
      c5CexSt.asteroids.length + 1 :=
  maintenance_spawns_exactly_one zeroEnv c5CexSt rfl rfl
    (by norm_num [c5CexSt])

/-- Witness for C6's theorem at the two-overlapping-obstacle scene. -/
theorem c6_witness :
    (innerLoop zeroEnv 0 c6CexSt.asteroids.length c6CexSt =
        processHit zeroEnv 0 1 c6CexSt ∧
      (processHit zeroEnv 0 1 c6CexSt).bullets =
        c6CexSt.bullets.eraseIdx 0) ∧
    ∀ (st' : GameState) (i' : ℕ),
      (∀ t : ℕ, t < st'.asteroids.length →
        ¬ bulletHits (st'.bullets.getD i' default)
          (st'.asteroids.getD t default)) →
      innerLoop zeroEnv i' st'.asteroids.length st' = st' :=
  projectile_hits_newest_first zeroEnv 0 c6CexSt 1
    (by norm_num [c6CexSt])
    (by with_unfolding_all decide)
    (fun t ht1 ht2 => by
      rw [show c6CexSt.asteroids.length = 2 from rfl] at ht2
      omega)

/-- Witness for C7's theorem at a starless scene under the constant-0
sine source. -/
theorem c7_witness :
    (getVertices zeroEnv c7WitSt 0).length % 2 = 0 ∧
    ∀ v ∈ getVertices zeroEnv c7WitSt 0, colorOk v :=
  geometry_even_and_colors zeroEnv c7WitSt 0
    (fun s hs => absurd hs (List.not_mem_nil s))
    (fun q => by norm_num [zeroEnv])

/-- Witness for C8's theorem at size 10, stream position 0, under the
constant legal environment. -/
theorem c8_witness :
    (8 ≤ (createAsteroidVertices zeroEnv 10 0).1.length ∧
      (createAsteroidVertices zeroEnv 10 0).1.length ≤ 12) ∧
    (∀ v ∈ (createAsteroidVertices zeroEnv 10 0).1,
      (3/5 * 10) ^ 2 ≤ v.x ^ 2 + v.y ^ 2 ∧
      v.x ^ 2 + v.y ^ 2 ≤ (7/5 * 10) ^ 2) ∧
    (∀ (st : GameState), ∀ a' ∈ (update zeroEnv st).asteroids,
      (∃ a ∈ st.asteroids, a'.vertices = a.vertices) ∨
      ∃ sz' k', a'.vertices = (createAsteroidVertices zeroEnv sz' k').1) :=
  obstacle_outline_law zeroEnv 10 0
    (fun n => by norm_num [zeroEnv])
    (fun q => by norm_num [zeroEnv])
    (by norm_num)

/-- Witness for C9's theorem: three consecutive presses from released
spawn exactly one bullet. -/
theorem c9_witness :
    ((handleSpaceKey zeroEnv true)^[2 + 1] c5CexSt).bullets.length =
      c5CexSt.bullets.length + 1 :=
  fire_edge_triggered zeroEnv c5CexSt 2 rfl rfl

/-- Witness for C10's theorem at a concrete position and field. -/
theorem c10_witness :
    (0 ≤ (wrapPosition 100 100 ⟨3, 7⟩).x ∧
      (wrapPosition 100 100 ⟨3, 7⟩).x ≤ 100 ∧
      0 ≤ (wrapPosition 100 100 ⟨3, 7⟩).y ∧
      (wrapPosition 100 100 ⟨3, 7⟩).y ≤ 100) ∧
    (∃ q : Vec2, (wrapPosition 100 100 q).x = 100 ∧
      (wrapPosition 100 100 q).y = 100) ∧
    wrapPosition 100 100 (wrapPosition 100 100 ⟨3, 7⟩) =
      wrapPosition 100 100 ⟨3, 7⟩ :=
  wrapPosition_closed_box_idem 100 100 ⟨3, 7⟩ (by norm_num) (by norm_num)

end AsteroidsGame
